import Mathlib

/-!
Verification of the Football-match-report repository (src/main.py, src/report.py).

The Python values flowing through the code are JSON-shaped: dicts, lists,
strings, ints, floats, booleans and null.  They are embedded as the inductive
type `J` below.  Python floats are modelled as rationals (`Rat`), so numeric
identities that the code guarantees only up to floating-point rounding are
proved exactly.  Python `bool` is a subclass of `int`, so the numeric probes
(`isinstance(x, int)`, `isinstance(x, (int, float))`) accept booleans; the
corresponding helpers `J.asInt` / `J.asNum` do the same.
-/

/-- A Python/JSON value: None, bool, int, float, str, list, dict.
Dicts are association lists with unique keys (Python `json` keeps one value
per key); lookup is by first match. -/
inductive J where
  | null : J
  | b : Bool → J
  | i : Int → J
  | f : Rat → J
  | s : String → J
  | arr : List J → J
  | obj : List (String × J) → J

/-- Is the value a Python dict? (models `isinstance(x, dict)`). -/
def J.isObj : J → Bool
  | .obj _ => true
  | _ => false

/-- Is the value a Python list? (models `isinstance(x, list)`). -/
def J.isArr : J → Bool
  | .arr _ => true
  | _ => false

/-- Python truthiness of a JSON value (`bool(x)` / `if x:`). -/
def J.pyFalsy : J → Bool
  | .null => true
  | .b v => !v
  | .i n => n == 0
  | .f q => q == 0
  | .s v => v == ""
  | .arr xs => xs.isEmpty
  | .obj fs => fs.isEmpty

/-- Models `isinstance(x, (int, float))` together with the numeric value used
in arithmetic afterwards.  Booleans count (Python `bool` is an `int`:
`True` is `1`, `False` is `0`); strings and containers do not. -/
def J.asNum : J → Option Rat
  | .i n => some (n : Rat)
  | .f q => some q
  | .b v => some (if v then 1 else 0)
  | _ => none

/-- Models `isinstance(x, int)` together with the integer value.  Booleans
count, floats do not. -/
def J.asInt : J → Option Int
  | .i n => some n
  | .b v => some (if v then 1 else 0)
  | _ => none

/-- `dict.get(k)` on a `J.obj`, `none` on every other value. -/
def J.get (x : J) (k : String) : Option J :=
  match x with
  | .obj fs => fs.lookup k
  | _ => none

/-- A step of the probe path used by `_safe_get`: an integer index into a
list or a string key into a dict. -/
inductive PathKey where
  | idx : Nat → PathKey
  | key : String → PathKey

/-- `_safe_get` of src/main.py: walk a path of keys/indices through nested
containers, returning the default (`none`) the instant a segment is missing
or the current value has the wrong container type. -/
def safeGet : J → List PathKey → Option J
  | cur, [] => some cur
  | cur, PathKey.idx n :: rest =>
    match cur with
    | J.arr xs =>
      match xs.get? n with
      | some v => safeGet v rest
      | none => none
    | _ => none
  | cur, PathKey.key k :: rest =>
    match cur with
    | J.obj fs =>
      match fs.lookup k with
      | some v => safeGet v rest
      | none => none
    | _ => none

/-- `_safe_get` where the root may be Python `None` (absent). -/
def safeGetO : Option J → List PathKey → Option J
  | some x, path => safeGet x path
  | none, _ => none

/-- The `1e-9` threshold of the odds checks in src/main.py, as a rational. -/
def oddsEps : Rat := 1 / 1000000000

/-- The numeric probe of one market field: look the key up in the market dict
and apply the `isinstance(x, (int, float))` test. -/
def numAt (fs : List (String × J)) (k : String) : Option Rat :=
  match fs.lookup k with
  | some v => v.asNum
  | none => none

/-- Result of `_implied_probs_1x2`: either the dict `{"available": False}` —
which carries no probability fields and no overround field — or the dict with
`available: True` and the four derived numbers. -/
inductive Implied1x2 where
  | unavailable : Implied1x2
  | available (home draw away overround : Rat) : Implied1x2
deriving DecidableEq

/-- The numeric core of `_implied_probs_1x2` (src/main.py lines 135-150),
taking the outcome of the `isinstance(x, (int, float))` probe of each of the
three quotes. -/
def implied1x2OfQuotes : Option Rat → Option Rat → Option Rat → Implied1x2
  | some h, some d, some a =>
    if h > oddsEps ∧ d > oddsEps ∧ a > oddsEps then
      let ih := 1 / h
      let idr := 1 / d
      let ia := 1 / a
      let sum := ih + idr + ia
      if sum ≤ 0 then Implied1x2.unavailable
      else Implied1x2.available (ih / sum) (idr / sum) (ia / sum) sum
    else Implied1x2.unavailable
  | _, _, _ => Implied1x2.unavailable

/-- `_implied_probs_1x2` of src/main.py: `{"available": False}` unless the
market is a dict whose `home`/`draw`/`away` values are all numeric and
greater than `1e-9`; otherwise invert each quote, sum the inverses
(the overround) and normalize. -/
def impliedProbs1x2 (mw : Option J) : Implied1x2 :=
  match mw with
  | some (J.obj fs) =>
    implied1x2OfQuotes (numAt fs "home") (numAt fs "draw") (numAt fs "away")
  | _ => Implied1x2.unavailable

/-- One of the three 1X2 quotes is missing, non-numeric, zero or negative
(the failure modes of claim C2). -/
def badQuote (fs : List (String × J)) (k : String) : Prop :=
  fs.lookup k = none ∨
  (∃ v, fs.lookup k = some v ∧ v.asNum = none) ∨
  (∃ v q, fs.lookup k = some v ∧ v.asNum = some q ∧ q ≤ 0)

theorem implied1x2OfQuotes_none_left (d a : Option Rat) :
    implied1x2OfQuotes none d a = Implied1x2.unavailable := by
  cases d <;> cases a <;> rfl

theorem implied1x2OfQuotes_none_mid (h a : Option Rat) :
    implied1x2OfQuotes h none a = Implied1x2.unavailable := by
  cases h <;> cases a <;> rfl

theorem implied1x2OfQuotes_none_right (h d : Option Rat) :
    implied1x2OfQuotes h d none = Implied1x2.unavailable := by
  cases h <;> cases d <;> rfl

theorem implied1x2OfQuotes_nonpos (h d a : Rat)
    (hbad : h ≤ 0 ∨ d ≤ 0 ∨ a ≤ 0) :
    implied1x2OfQuotes (some h) (some d) (some a) = Implied1x2.unavailable := by
  have heps : (0 : Rat) < oddsEps := by norm_num [oddsEps]
  have hcond : ¬(h > oddsEps ∧ d > oddsEps ∧ a > oddsEps) := by
    rcases hbad with hb | hb | hb <;> intro hc <;> rcases hc with ⟨h1, h2, h3⟩ <;> linarith
  simp [implied1x2OfQuotes, hcond]

theorem badQuote_numAt {fs : List (String × J)} {k : String}
    (h : badQuote fs k) :
    numAt fs k = none ∨ ∃ q, numAt fs k = some q ∧ q ≤ 0 := by
  rcases h with hmiss | ⟨v, hl, hn⟩ | ⟨v, q, hl, hn, hle⟩
  · exact Or.inl (by simp [numAt, hmiss])
  · exact Or.inl (by simp [numAt, hl, hn])
  · exact Or.inr ⟨q, by simp [numAt, hl, hn], hle⟩

/-- C1: for a 1X2 market dict whose home/draw/away quotes are all present,
numeric and greater than `1e-9`, `_implied_probs_1x2` returns the available
result whose overround is the sum of the three inverted quotes, whose
probabilities are each inverse divided by the overround, each lying strictly
between 0 and 1, and summing exactly to 1 (the floating-point computation is
modelled exactly over the rationals). -/
theorem implied1x2_available_spec (fs : List (String × J)) (hv dv av : J)
    (hq dq aq : Rat)
    (hlh : fs.lookup "home" = some hv) (hnh : hv.asNum = some hq)
    (hld : fs.lookup "draw" = some dv) (hnd : dv.asNum = some dq)
    (hla : fs.lookup "away" = some av) (hna : av.asNum = some aq)
    (hgh : hq > oddsEps) (hgd : dq > oddsEps) (hga : aq > oddsEps) :
    ∃ ph pd pa ov,
      impliedProbs1x2 (some (J.obj fs)) = Implied1x2.available ph pd pa ov ∧
      ov = 1 / hq + 1 / dq + 1 / aq ∧
      ph = (1 / hq) / ov ∧ pd = (1 / dq) / ov ∧ pa = (1 / aq) / ov ∧
      0 < ph ∧ ph < 1 ∧ 0 < pd ∧ pd < 1 ∧ 0 < pa ∧ pa < 1 ∧
      ph + pd + pa = 1 := by
  have heps : (0 : Rat) < oddsEps := by norm_num [oddsEps]
  have hh0 : (0 : Rat) < hq := lt_trans heps hgh
  have hd0 : (0 : Rat) < dq := lt_trans heps hgd
  have ha0 : (0 : Rat) < aq := lt_trans heps hga
  have hih : (0 : Rat) < 1 / hq := by positivity
  have hid : (0 : Rat) < 1 / dq := by positivity
  have hia : (0 : Rat) < 1 / aq := by positivity
  have hs0 : (0 : Rat) < 1 / hq + 1 / dq + 1 / aq := by positivity
  have hns : ¬ (1 / hq + 1 / dq + 1 / aq ≤ 0) := not_le.mpr hs0
  have hsne : (1 / hq + 1 / dq + 1 / aq) ≠ 0 := ne_of_gt hs0
  have hH : numAt fs "home" = some hq := by simp [numAt, hlh, hnh]
  have hD : numAt fs "draw" = some dq := by simp [numAt, hld, hnd]
  have hA : numAt fs "away" = some aq := by simp [numAt, hla, hna]
  refine ⟨(1 / hq) / (1 / hq + 1 / dq + 1 / aq),
    (1 / dq) / (1 / hq + 1 / dq + 1 / aq),
    (1 / aq) / (1 / hq + 1 / dq + 1 / aq),
    1 / hq + 1 / dq + 1 / aq, ?_, rfl, rfl, rfl, rfl,
    ?_, ?_, ?_, ?_, ?_, ?_, ?_⟩
  · simp only [impliedProbs1x2, hH, hD, hA, implied1x2OfQuotes]
    rw [if_pos ⟨hgh, hgd, hga⟩, if_neg hns]
  · positivity
  · rw [div_lt_one hs0]; linarith
  · positivity
  · rw [div_lt_one hs0]; linarith
  · positivity
  · rw [div_lt_one hs0]; linarith
  · rw [div_add_div_same, div_add_div_same, div_self hsne]

/-- Witness for C1: the market with quotes 2, 7/2 and 3 is available and
normalizes as stated. -/
theorem implied1x2_available_spec_witness :
    ∃ ph pd pa ov,
      impliedProbs1x2 (some (J.obj [("home", J.f 2), ("draw", J.f (7/2)), ("away", J.f 3)])) =
        Implied1x2.available ph pd pa ov ∧
      ov = 1 / 2 + 1 / (7/2 : Rat) + 1 / 3 ∧
      ph = (1 / 2) / ov ∧ pd = (1 / (7/2 : Rat)) / ov ∧ pa = (1 / 3) / ov ∧
      0 < ph ∧ ph < 1 ∧ 0 < pd ∧ pd < 1 ∧ 0 < pa ∧ pa < 1 ∧
      ph + pd + pa = 1 :=
  implied1x2_available_spec
    [("home", J.f 2), ("draw", J.f (7/2)), ("away", J.f 3)]
    (J.f 2) (J.f (7/2)) (J.f 3) 2 (7/2) 3
    rfl rfl rfl rfl rfl rfl (by norm_num [oddsEps]) (by norm_num [oddsEps])
    (by norm_num [oddsEps])

/-- C2: if any of the home/draw/away quotes of the 1X2 market dict is
missing, non-numeric, zero or negative, `_implied_probs_1x2` returns the
`{"available": False}` result, which carries no probability fields and no
overround field (`Implied1x2.unavailable` has no arguments). -/
theorem implied1x2_unavailable_spec (fs : List (String × J))
    (hbad : badQuote fs "home" ∨ badQuote fs "draw" ∨ badQuote fs "away") :
    impliedProbs1x2 (some (J.obj fs)) = Implied1x2.unavailable := by
  show implied1x2OfQuotes (numAt fs "home") (numAt fs "draw") (numAt fs "away") =
    Implied1x2.unavailable
  rcases hbad with hb | hb | hb
  · rcases badQuote_numAt hb with hn | ⟨q, hn, hle⟩
    · rw [hn]; exact implied1x2OfQuotes_none_left _ _
    · rw [hn]
      rcases hd : numAt fs "draw" with _ | dq
      · exact implied1x2OfQuotes_none_mid _ _
      · rcases ha : numAt fs "away" with _ | aq
        · exact implied1x2OfQuotes_none_right _ _
        · exact implied1x2OfQuotes_nonpos _ _ _ (Or.inl hle)
  · rcases badQuote_numAt hb with hn | ⟨q, hn, hle⟩
    · rw [hn]; exact implied1x2OfQuotes_none_mid _ _
    · rw [hn]
      rcases hh : numAt fs "home" with _ | hq
      · exact implied1x2OfQuotes_none_left _ _
      · rcases ha : numAt fs "away" with _ | aq
        · exact implied1x2OfQuotes_none_right _ _
        · exact implied1x2OfQuotes_nonpos _ _ _ (Or.inr (Or.inl hle))
  · rcases badQuote_numAt hb with hn | ⟨q, hn, hle⟩
    · rw [hn]; exact implied1x2OfQuotes_none_right _ _
    · rw [hn]
      rcases hh : numAt fs "home" with _ | hq
      · exact implied1x2OfQuotes_none_left _ _
      · rcases hd : numAt fs "draw" with _ | dq
        · exact implied1x2OfQuotes_none_mid _ _
        · exact implied1x2OfQuotes_nonpos _ _ _ (Or.inr (Or.inr hle))

/-- Witness for C2: a market quoting home at 0 and missing the away quote is
unavailable. -/
theorem implied1x2_unavailable_spec_witness :
    impliedProbs1x2 (some (J.obj [("home", J.i 0), ("draw", J.f 3)])) =
      Implied1x2.unavailable :=
  implied1x2_unavailable_spec [("home", J.i 0), ("draw", J.f 3)]
    (Or.inl (Or.inr (Or.inr ⟨J.i 0, 0, rfl, rfl, le_refl 0⟩)))

/-- The ASCII whitespace characters removed by Python `str.strip()`
(space, tab, newline, carriage return, vertical tab, form feed;
non-ASCII Unicode whitespace is not modelled — no name in this code base
contains it). -/
def pySpace (c : Char) : Bool :=
  c == ' ' || c == '\t' || c == '\n' || c == '\r' ||
  c == Char.ofNat 11 || c == Char.ofNat 12

/-- `str.strip()` on the character list: drop leading and trailing
whitespace. -/
def pyStripList (l : List Char) : List Char :=
  ((l.dropWhile pySpace).reverse.dropWhile pySpace).reverse

/-- Python `str.strip()`. -/
def pyStrip (s : String) : String :=
  String.mk (pyStripList s.data)

/-- Python `str.lower()` (ASCII case folding; the sentinel comparisons in
`_clean_name` only involve ASCII). -/
def pyLower (s : String) : String :=
  String.mk (s.data.map Char.toLower)

/-- `_clean_name` of src/report.py: `""` for `None` else the stripped
string; substitute `"TBD"` when the lowercase form is `"none"`, `"null"`
or empty.  The call sites pass optional strings (team, player, league,
stadium names and similar), so the argument is modelled as
`Option String`. -/
def cleanName (x : Option String) : String :=
  let s : String :=
    match x with
    | none => ""
    | some v => pyStrip v
  if pyLower s = "none" ∨ pyLower s = "null" ∨ pyLower s = "" then "TBD" else s

theorem dropWhile_eq_self_of_head (p : α → Bool) (l : List α)
    (h : ∀ x, l.head? = some x → p x = false) : l.dropWhile p = l := by
  cases l with
  | nil => rfl
  | cons x xs => exact List.dropWhile_cons_of_neg (by simp [h x rfl])

theorem dropWhile_idem (p : α → Bool) (l : List α) :
    (l.dropWhile p).dropWhile p = l.dropWhile p := by
  apply dropWhile_eq_self_of_head
  intro x hx
  have hm := List.head?_dropWhile_not p l
  rw [hx] at hm
  exact hm

theorem getLast?_dropWhile (p : α → Bool) (l : List α)
    (h : l.dropWhile p ≠ []) :
    (l.dropWhile p).getLast? = l.getLast? := by
  induction l with
  | nil => simp [List.dropWhile] at h
  | cons x xs ih =>
    by_cases hp : p x
    · rw [List.dropWhile_cons_of_pos hp] at h ⊢
      have hxs : xs ≠ [] := by
        intro he
        subst he
        simp [List.dropWhile] at h
      obtain ⟨y, ys, rfl⟩ := List.exists_cons_of_ne_nil hxs
      rw [List.getLast?_cons_cons]
      exact ih h
    · rw [List.dropWhile_cons_of_neg hp]

theorem pyStripList_stripped (l : List Char) :
    (pyStripList l).dropWhile pySpace = pyStripList l := by
  apply dropWhile_eq_self_of_head
  intro x hx
  unfold pyStripList at hx
  rw [List.head?_reverse] at hx
  have hne : (List.dropWhile pySpace (List.dropWhile pySpace l).reverse) ≠ [] := by
    intro he
    rw [he] at hx
    simp at hx
  rw [getLast?_dropWhile _ _ hne, List.getLast?_reverse] at hx
  have hm := List.head?_dropWhile_not pySpace l
  rw [hx] at hm
  exact hm

theorem pyStripList_idem (l : List Char) :
    pyStripList (pyStripList l) = pyStripList l := by
  show (((pyStripList l).dropWhile pySpace).reverse.dropWhile pySpace).reverse
    = pyStripList l
  rw [pyStripList_stripped l]
  show ((((l.dropWhile pySpace).reverse.dropWhile pySpace).reverse).reverse.dropWhile
    pySpace).reverse = pyStripList l
  rw [List.reverse_reverse, dropWhile_idem]
  rfl

theorem pyStrip_idem (s : String) : pyStrip (pyStrip s) = pyStrip s := by
  show String.mk (pyStripList (pyStripList s.data)) = String.mk (pyStripList s.data)
  rw [pyStripList_idem]

/-- C8: `_clean_name` is idempotent — applying it to its own output
(including the placeholder `"TBD"` itself) returns that output unchanged. -/
theorem cleanName_idempotent :
    (∀ x : Option String, cleanName (some (cleanName x)) = cleanName x) ∧
    cleanName (some "TBD") = "TBD" := by
  constructor
  · intro x
    cases x with
    | none =>
      have h : cleanName none = "TBD" := by decide
      rw [h]
      decide
    | some v =>
      by_cases hg : pyLower (pyStrip v) = "none" ∨ pyLower (pyStrip v) = "null" ∨
          pyLower (pyStrip v) = ""
      · have h1 : cleanName (some v) = "TBD" := by simp [cleanName, hg]
        rw [h1]
        decide
      · have h1 : cleanName (some v) = pyStrip v := by simp [cleanName, hg]
        rw [h1]
        simp [cleanName, pyStrip_idem v, hg]
  · decide

/-- Python `str.upper()` (ASCII case folding). -/
def pyUpper (s : String) : String :=
  String.mk (s.data.map Char.toUpper)

/-- `str(b)` for a Python boolean. -/
def pyBoolStr (v : Bool) : String :=
  if v then "True" else "False"

/-- Left-pad a digit string with zeros to the given width. -/
def padZero (w : Nat) (s : String) : String :=
  if s.length ≥ w then s
  else String.mk (List.replicate (w - s.length) '0') ++ s

/-- Remove every trailing occurrence of one character
(Python `s.rstrip(c)` for a single-character argument). -/
def rstripChar (c : Char) (s : String) : String :=
  String.mk ((s.data.reverse.dropWhile (fun x => x == c)).reverse)

/-- Round to the nearest integer, ties to even (the rounding used by
Python float formatting, modelled exactly on rationals). -/
def roundHalfEven (x : Rat) : Int :=
  let fl := ⌊x⌋
  let r := x - (fl : Rat)
  if r < 1/2 then fl
  else if r > 1/2 then fl + 1
  else if fl % 2 = 0 then fl else fl + 1

/-- Python `f-string` formatting `.2f`: two decimal places, half-even. -/
def fmt2dec (v : Rat) : String :=
  let n := roundHalfEven (v * 100)
  let a := n.natAbs
  (if v < 0 then "-" else "") ++ toString (a / 100) ++ "." ++
    padZero 2 (toString (a % 100))

/-- Python `f-string` formatting `.1f`: one decimal place, half-even. -/
def fmt1dec (v : Rat) : String :=
  let n := roundHalfEven (v * 10)
  let a := n.natAbs
  (if v < 0 then "-" else "") ++ toString (a / 10) ++ "." ++ toString (a % 10)

/-- `_fmt_num` of src/report.py on its typed inputs (a float or `None`):
`"N/A"` for `None`, else format to two decimals and strip trailing zeros,
then a trailing point.  (The `except` fallback of the source handles
non-convertible inputs, which the typed call sites never produce.) -/
def fmtNum (x : Option Rat) : String :=
  match x with
  | none => "N/A"
  | some v => rstripChar '.' (rstripChar '0' (fmt2dec v))

/-- `_fmt_temp_c` of src/report.py: like `_fmt_num` with one decimal. -/
def fmtTempC (x : Option Rat) : String :=
  match x with
  | none => "N/A"
  | some v => rstripChar '.' (rstripChar '0' (fmt1dec v))

/-- Decimal digits of the fraction `r / den` (with `r < den`), up to `fuel`
digits; stops when the remainder is zero. -/
def fracDigits : Nat → Nat → Nat → List Char
  | _, _, 0 => []
  | r, den, fuel + 1 =>
    if r == 0 then []
    else
      let r10 := r * 10
      Char.ofNat (48 + r10 / den) :: fracDigits (r10 % den) den fuel

/-- `str(x)` for a Python float, modelled on rationals: the exact decimal
expansion (up to 17 fractional digits), with `".0"` appended to integral
values as Python does.  Exponent notation for very large/small magnitudes
is not modelled; no claim depends on this rendering. -/
def pyFloatStr (q : Rat) : String :=
  let sign := if q < 0 then "-" else ""
  let a : Rat := |q|
  let ip : Nat := a.floor.toNat
  let r : Rat := a - (a.floor : Rat)
  let ds := fracDigits r.num.toNat r.den 17
  if ds.isEmpty then sign ++ toString ip ++ ".0"
  else sign ++ toString ip ++ "." ++ String.mk ds

/-- `str(x)` of a JSON value as interpolated into the report f-strings.
Containers render as placeholders (the full Python `repr` of nested
containers is not modelled; no rendered field of the report is a
container in practice). -/
def pyStr : J → String
  | .null => "None"
  | .b v => pyBoolStr v
  | .i n => toString n
  | .f q => pyFloatStr q
  | .s v => v
  | .arr _ => "[...]"
  | .obj _ => "\x7b...\x7d"

/-- `str(x)` where the value may be absent (`None`). -/
def pyStrOpt : Option J → String
  | some v => pyStr v
  | none => "None"

/-- Gregorian civil date from a count of days since 1970-01-01
(the standard era-based algorithm; exact for all integers). -/
def civilFromDays (z0 : Int) : Int × Int × Int :=
  let z := z0 + 719468
  let era := z.fdiv 146097
  let doe := z - era * 146097
  let yoe := (doe - doe / 1460 + doe / 36524 - doe / 146096) / 365
  let y := yoe + era * 400
  let doy := doe - (365 * yoe + yoe / 4 - yoe / 100)
  let mp := (5 * doy + 2) / 153
  let d := doy - (153 * mp + 2) / 5 + 1
  let m := mp + (if mp < 10 then 3 else -9)
  (y + (if m ≤ 2 then 1 else 0), m, d)

/-- `datetime.fromtimestamp(t, timezone.utc).strftime("%Y-%m-%d %H:%M UTC")`:
UTC calendar rendering of an epoch second count; `none` when the timestamp
is outside the supported year range 1..9999 (where `fromtimestamp` raises,
caught by `_fmt_ts`). -/
def fmtEpoch (t : Int) : Option String :=
  let days := t.fdiv 86400
  let secs := t.emod 86400
  let c := civilFromDays days
  if c.1 < 1 ∨ c.1 > 9999 then none
  else some (padZero 4 (toString c.1.toNat) ++ "-" ++
    padZero 2 (toString c.2.1.toNat) ++ "-" ++
    padZero 2 (toString c.2.2.toNat) ++ " " ++
    padZero 2 (toString (secs.fdiv 3600).toNat) ++ ":" ++
    padZero 2 (toString ((secs.emod 3600).fdiv 60).toNat) ++ " UTC")

/-- `_fmt_ts` of src/report.py: `None` for a falsy timestamp (absent or the
epoch second count 0), else the formatted UTC time, with conversion
failures returning `None`. -/
def fmtTs (ts : Option Int) : Option String :=
  match ts with
  | none => none
  | some t => if t = 0 then none else fmtEpoch t

/-- The suffix appended to the `"Odds"` heading in
`generate_report_main`: `" (last update: ...)"` when `_fmt_ts` produced a
string, empty otherwise. -/
def oddsSuffix (ts : Option Int) : String :=
  match fmtTs ts with
  | some u => " (last update: " ++ u ++ ")"
  | none => ""

/-- `IDName` of src/report.py (also `Team` and `Country`, which add no
fields): an id plus a display name. -/
structure IDName where
  id : Int
  name : String

/-- `Stadium` of src/report.py. -/
structure StadiumRec where
  id : Int
  name : String
  city : Option String

/-- `Stage` of src/report.py. -/
structure StageRec where
  id : Int
  name : String
  isActive : Bool

/-- `Goals` of src/report.py: the eight integer sub-scores. -/
structure GoalsRec where
  homeHt : Int
  awayHt : Int
  homeFt : Int
  awayFt : Int
  homeEt : Int
  awayEt : Int
  homePen : Int
  awayPen : Int

/-- `Player` of src/report.py. -/
structure PlayerRec where
  id : Int
  name : String
  position : Option String
  status : Option String
  desc : Option String

/-- `LineupPlayer` of src/report.py. -/
structure LineupPlayerRec where
  player : PlayerRec
  position : String

/-- `SidelinedEntry` of src/report.py. -/
structure SidelinedEntryRec where
  player : PlayerRec
  status : Option String
  desc : Option String

/-- `Lineups` of src/report.py.  The string-keyed dicts are association
lists. -/
structure LineupsRec where
  lineupType : String
  lineups : List (String × List LineupPlayerRec)
  bench : List (String × List LineupPlayerRec)
  sidelined : List (String × List SidelinedEntryRec)
  formation : List (String × Option String)

/-- `OddsMarket` of src/report.py.  `market` is `Union[str, float]`
upstream; only its `str()` is ever used, so it is modelled by that display
string. -/
structure OddsMarketRec where
  home : Option Rat
  away : Option Rat
  draw : Option Rat
  total : Option Rat
  over : Option Rat
  under : Option Rat
  market : Option String

/-- `Odds` of src/report.py. -/
structure OddsRec where
  matchWinner : Option OddsMarketRec
  overUnder : Option OddsMarketRec
  handicap : Option OddsMarketRec
  lastModifiedTimestamp : Option Int

/-- `MatchEvent` of src/report.py. -/
structure MatchEventRec where
  eventType : String
  eventMinute : String
  team : String
  player : Option PlayerRec
  assistPlayer : Option PlayerRec
  playerIn : Option PlayerRec
  playerOut : Option PlayerRec

/-- `Weather` of src/report.py. -/
structure WeatherRec where
  tempF : Rat
  tempC : Rat
  description : String

/-- `Prediction` of src/report.py (`p_type` carries the aliased `type`
field). -/
structure PredictionRec where
  pType : String
  choice : String
  total : Option String

/-- `PreviewData` of src/report.py. -/
structure PreviewDataRec where
  weather : Option WeatherRec
  excitementRating : Rat
  prediction : Option PredictionRec

/-- `DetailedPreview` of src/report.py. -/
structure DetailedPreviewRec where
  wordCount : Int
  matchData : PreviewDataRec

/-- `FootballMatch` of src/report.py (lines 280-302): the pydantic model.
Fields declared without a default are required for validation; `Optional`
fields and the defaulted `events` list are not. -/
structure FootballMatch where
  id : Int
  date : String
  time : String
  country : Option IDName
  league : IDName
  stage : Option StageRec
  teams : List (String × IDName)
  stadium : Option StadiumRec
  status : String
  minute : Int
  winner : String
  hasExtraTime : Option Bool
  hasPenalties : Option Bool
  goals : GoalsRec
  events : List MatchEventRec
  odds : Option OddsRec
  lineups : Option LineupsRec
  matchPreview : Option J
  detailedPreview : Option DetailedPreviewRec
  standing : Option J
  h2h : Option J

/-- Does the needle occur as a contiguous run at any position? -/
def listContainsSub (needle : List Char) : List Char → Bool
  | [] => needle.isEmpty
  | c :: rest => needle.isPrefixOf (c :: rest) || listContainsSub needle rest

/-- Substring test (Python `needle in haystack` on strings). -/
def strContains (hay needle : String) : Bool :=
  listContainsSub needle.data hay.data

/-- `_pos_bucket` of src/report.py: classify a position string into one of
the five fixed buckets by case-insensitive substring/equality tests. -/
def posBucket (pos : String) : String :=
  let p := pyLower (pyStrip pos)
  if strContains p "goal" || p == "gk" then "GK"
  else if strContains p "def" || p == "d" then "DEF"
  else if strContains p "mid" || p == "m" then "MID"
  else if strContains p "att" || strContains p "forw" || p == "f" then "ATT"
  else "OTHER"

/-- Python `==` between a JSON value (or a missing one) and an int
(numeric cross-type equality; everything else unequal). -/
def pyEqInt : Option J → Int → Bool
  | some (J.i n), k => n == k
  | some (J.f q), k => q == (k : Rat)
  | some (J.b v), k => (if v then (1 : Int) else 0) == k
  | _, _ => false

/-- Inner row scan of `_standing_lookup` / `_standing_row`: first dict row
whose `team_id` equals the team id. -/
def rowsFind (teamId : Int) : List J → Option J
  | [] => none
  | r :: rest =>
    match r with
    | J.obj fs =>
      if pyEqInt (fs.lookup "team_id") teamId then some (J.obj fs)
      else rowsFind teamId rest
    | _ => rowsFind teamId rest

/-- Stage scan of `_standing_lookup` / `_standing_row`: walk the stages,
skipping non-dict stages and non-list standings, returning the first
matching row. -/
def stageFind (teamId : Int) : List J → Option J
  | [] => none
  | st :: rest =>
    match st with
    | J.obj fs =>
      match fs.lookup "standings" with
      | some (J.arr rows) =>
        match rowsFind teamId rows with
        | some r => some r
        | none => stageFind teamId rest
      | _ => stageFind teamId rest
    | _ => stageFind teamId rest

/-- `_standing_lookup` of src/report.py (identical in behaviour to
`_standing_row` of src/main.py): find one team's table row across all
stages of a raw standing payload. -/
def standingLookup (standingRaw : J) (teamId : Int) : Option J :=
  match standingRaw.get "stage" with
  | some (J.arr stages) => stageFind teamId stages
  | _ => none

/-- An apostrophe, kept out of string literals. -/
def apos : String := String.singleton (Char.ofNat 39)

/-- Truthiness of an optional string (Python `if x:` on `Optional[str]`). -/
def strOptTruthy : Option String → Bool
  | some t => t != ""
  | none => false

/-- `_format_xi` of src/report.py: take the first 11 entries, group them
into the five fixed buckets (the source appends to per-bucket lists in one
pass, which keeps each bucket in player order — equal to an order-preserving
per-bucket filter), drop empty buckets, and fall back to
`"XI: Not available"`. -/
def formatXi (players : List LineupPlayerRec) : List String :=
  let first11 := players.take 11
  let bucketLine := fun (k : String) =>
    let names := (first11.filter (fun lp => posBucket lp.position == k)).map
      (fun lp => cleanName (some lp.player.name))
    if names.isEmpty then ([] : List String)
    else [k ++ ": " ++ String.intercalate ", " names]
  let out := bucketLine "GK" ++ bucketLine "DEF" ++ bucketLine "MID" ++
    bucketLine "ATT" ++ bucketLine "OTHER"
  if out.isEmpty then ["XI: Not available"] else out

/-- `_format_sidelined` of src/report.py: list each sidelined player with a
parenthesized status/description; entries whose cleaned name is the
placeholder are dropped; no line when nothing remains. -/
def formatSidelined (title : String) (items : List SidelinedEntryRec) : List String :=
  if items.isEmpty then []
  else
    let parts := items.filterMap (fun it =>
      let name := cleanName (some it.player.name)
      if name == "TBD" then none
      else
        let tl : List String :=
          (match it.status with
           | some st => if st != "" then [st] else []
           | none => []) ++
          (match it.desc with
           | some de => if de != "" then [de] else []
           | none => [])
        some (if tl.isEmpty then name
          else name ++ " (" ++ String.intercalate "; " tl ++ ")"))
    if parts.isEmpty then [] else [title ++ ": " ++ String.intercalate ", " parts]

/-- The `"Home"`/`"Away"` side tag of an event
(`"Home" if (e.team or "").strip().lower() == "home" else "Away"`). -/
def eventSide (e : MatchEventRec) : String :=
  if pyLower (pyStrip e.team) == "home" then "Home" else "Away"

/-- `generate_report_main` of src/report.py (lines 303-469), producing the
report as its list of lines (the method returns `"\n".join(r)`; see
`generateReportMain`).  The event partition models the source's
`e not in goals + yellows + subs` membership test: pydantic equality is
field equality, and field-equal events have equal `event_type`, so the
`others` bucket is exactly the events whose lowercased type is none of
`goal`, `yellow_card`, `substitution`. -/
def generateReportLines (m : FootballMatch) : List String :=
  let homeTeam := m.teams.lookup "home"
  let awayTeam := m.teams.lookup "away"
  let home := cleanName (homeTeam.map IDName.name)
  let away := cleanName (awayTeam.map IDName.name)
  let homeId := homeTeam.map IDName.id
  let awayId := awayTeam.map IDName.id
  let country := cleanName (m.country.map IDName.name)
  let headerPart : List String :=
    [home ++ " (Home) vs " ++ away ++ " (Away)",
     "Match ID: " ++ toString m.id,
     "Competition: " ++ cleanName (some m.league.name) ++ " (" ++ country ++
       ") | League ID: " ++ toString m.league.id] ++
    (match m.stage with
     | some st =>
       ["Stage: " ++ cleanName (some st.name) ++ " | Active: " ++
         pyBoolStr st.isActive]
     | none => []) ++
    ["Kick-off: " ++ m.date ++ " " ++ m.time] ++
    (match m.stadium with
     | some sd =>
       let venueCity := cleanName sd.city
       ["Venue: " ++ cleanName (some sd.name) ++
         (if venueCity ≠ "TBD" then ", " ++ venueCity else "")]
     | none => ["Venue: TBD"])
  let st := pyLower (pyStrip m.status)
  let statusPart : List String :=
    [""] ++
    (if st = "finished" then ["Status: FINISHED"]
     else if st = "live" then ["Status: LIVE | Minute: " ++ toString m.minute]
     else ["Status: " ++ pyUpper m.status]) ++
    ["Score: FT " ++ home ++ " (Home) " ++ toString m.goals.homeFt ++ "–" ++
      toString m.goals.awayFt ++ " " ++ away ++ " (Away) | HT " ++
      toString m.goals.homeHt ++ "–" ++ toString m.goals.awayHt] ++
    (let w := cleanName (some m.winner)
     if w ≠ "TBD" then ["Winner: " ++ pyUpper w] else [])
  let previewPart : List String :=
    match m.detailedPreview with
    | some dp =>
      let md := dp.matchData
      [""] ++
      (match md.weather with
       | some wx =>
         ["Weather: " ++ fmtTempC (some wx.tempC) ++ "°C, " ++
           cleanName (some wx.description)]
       | none => []) ++
      ["Excitement rating: " ++ fmtNum (some md.excitementRating) ++ "/10"] ++
      (match md.prediction with
       | some pr =>
         ["Prediction [" ++ cleanName (some pr.pType) ++
           (match pr.total with
            | some t => if t ≠ "" then " " ++ t else ""
            | none => "") ++ "]: " ++ cleanName (some pr.choice)]
       | none => [])
    | none => []
  let standingPart : List String :=
    match m.standing, homeId, awayId with
    | some stg, some hid, some aid =>
      if !stg.pyFalsy && stg.isObj && hid != 0 && aid != 0 then
        let hRow := standingLookup stg hid
        let aRow := standingLookup stg aid
        if hRow.isSome || aRow.isSome then
          ["", "Table snapshot"] ++
          (match hRow with
           | some row =>
             [home ++ " (Home): Pos " ++ pyStrOpt (row.get "position") ++
               " | Pts " ++ pyStrOpt (row.get "points") ++ " | GP " ++
               pyStrOpt (row.get "games_played") ++ " | W-D-L " ++
               pyStrOpt (row.get "wins") ++ "-" ++ pyStrOpt (row.get "draws") ++
               "-" ++ pyStrOpt (row.get "losses") ++ " | GF " ++
               pyStrOpt (row.get "goals_for") ++ " GA " ++
               pyStrOpt (row.get "goals_against")]
           | none => []) ++
          (match aRow with
           | some row =>
             [away ++ " (Away): Pos " ++ pyStrOpt (row.get "position") ++
               " | Pts " ++ pyStrOpt (row.get "points") ++ " | GP " ++
               pyStrOpt (row.get "games_played") ++ " | W-D-L " ++
               pyStrOpt (row.get "wins") ++ "-" ++ pyStrOpt (row.get "draws") ++
               "-" ++ pyStrOpt (row.get "losses") ++ " | GF " ++
               pyStrOpt (row.get "goals_for") ++ " GA " ++
               pyStrOpt (row.get "goals_against")]
           | none => [])
        else []
      else []
    | _, _, _ => []
  let oddsPart : List String :=
    match m.odds with
    | some o =>
      ["", "Odds" ++ oddsSuffix o.lastModifiedTimestamp] ++
      (match o.matchWinner with
       | some mw =>
         if mw.home.isSome || mw.draw.isSome || mw.away.isSome then
           ["1X2: " ++ home ++ " (Home) " ++ fmtNum mw.home ++ " | Draw " ++
             fmtNum mw.draw ++ " | " ++ away ++ " (Away) " ++ fmtNum mw.away]
         else []
       | none => []) ++
      (match o.overUnder with
       | some ou =>
         match ou.total with
         | some t =>
           if ou.over.isSome || ou.under.isSome then
             ["Over/Under " ++ pyFloatStr t ++ ": Over " ++ fmtNum ou.over ++
               " | Under " ++ fmtNum ou.under]
           else []
         | none => []
       | none => []) ++
      (match o.handicap with
       | some hc =>
         match hc.market with
         | some mkt =>
           if hc.home.isSome || hc.away.isSome then
             ["Handicap " ++ mkt ++ ": " ++ home ++ " (Home) " ++
               fmtNum hc.home ++ " | " ++ away ++ " (Away) " ++ fmtNum hc.away]
           else []
         | none => []
       | none => [])
    | none => []
  let lineupsPart : List String :=
    match m.lineups with
    | some lu =>
      let hForm := (lu.formation.lookup "home").join
      let aForm := (lu.formation.lookup "away").join
      ["", "Lineups: " ++ cleanName (some lu.lineupType)] ++
      (match hForm, aForm with
       | some hf, some af =>
         if hf ≠ "" ∧ af ≠ "" ∧ pyLower hf ≠ "none" ∧ pyLower af ≠ "none" then
           ["Formations: " ++ home ++ " (Home) " ++ hf ++ " | " ++ away ++
             " (Away) " ++ af]
         else ["Formations: not announced"]
       | _, _ => ["Formations: not announced"]) ++
      ["", home ++ " (Home) XI"] ++ formatXi ((lu.lineups.lookup "home").getD []) ++
      ["", away ++ " (Away) XI"] ++ formatXi ((lu.lineups.lookup "away").getD []) ++
      (let extra := formatSidelined (home ++ " (Home) sidelined")
          ((lu.sidelined.lookup "home").getD []) ++
        formatSidelined (away ++ " (Away) sidelined")
          ((lu.sidelined.lookup "away").getD [])
       if extra.isEmpty then [] else [""] ++ extra)
    | none => []
  let eventsPart : List String :=
    if m.events.isEmpty then []
    else
      let goalsE := m.events.filter (fun e => pyLower e.eventType == "goal")
      let yellows := m.events.filter (fun e => pyLower e.eventType == "yellow_card")
      let subs := m.events.filter (fun e => pyLower e.eventType == "substitution")
      let others := m.events.filter (fun e =>
        !(pyLower e.eventType == "goal" || pyLower e.eventType == "yellow_card" ||
          pyLower e.eventType == "substitution"))
      ["", "Events"] ++
      (if goalsE.isEmpty then []
       else "Goals" :: goalsE.map (fun e =>
         let assist := e.assistPlayer.map (fun p => cleanName (some p.name))
         "- " ++ e.eventMinute ++ apos ++ " " ++
           cleanName (e.player.map PlayerRec.name) ++ " (" ++ eventSide e ++ ")" ++
           (match assist with
            | some an => if an ≠ "" then ", assist " ++ an else ""
            | none => ""))) ++
      (if yellows.isEmpty then []
       else "Yellow cards" :: yellows.map (fun e =>
         "- " ++ e.eventMinute ++ apos ++ " " ++
           cleanName (e.player.map PlayerRec.name) ++ " (" ++ eventSide e ++ ")")) ++
      (if subs.isEmpty then []
       else "Substitutions" :: subs.map (fun e =>
         "- " ++ e.eventMinute ++ apos ++ " (" ++ eventSide e ++ ") IN " ++
           cleanName (e.playerIn.map PlayerRec.name) ++ " | OUT " ++
           cleanName (e.playerOut.map PlayerRec.name))) ++
      (if others.isEmpty then []
       else "Other" :: (others.take 25).map (fun e =>
         "- " ++ e.eventMinute ++ apos ++ " " ++ e.eventType ++ " (" ++
           eventSide e ++ ")"))
  headerPart ++ statusPart ++ previewPart ++ standingPart ++ oddsPart ++
    lineupsPart ++ eventsPart

/-- `generate_report_main` of src/report.py: the joined report text. -/
def generateReportMain (m : FootballMatch) : String :=
  String.intercalate "\n" (generateReportLines m)

/-!
Pydantic validation (`FootballMatch.model_validate`) modelled at the
presence/shape level: a field declared without a default must be present
and of the declared shape, `Optional` fields accept absence or `null`,
and extra keys are ignored (`extra="allow"`).  Lax-mode string/number
coercions of pydantic are not modelled; no claim depends on them.
Validation failure is `Except.error ()` (a raised `ValidationError`).
-/

def parseStr : J → Except Unit String
  | .s v => Except.ok v
  | _ => Except.error ()

def parseInt : J → Except Unit Int
  | .i n => Except.ok n
  | _ => Except.error ()

def parseBool : J → Except Unit Bool
  | .b v => Except.ok v
  | _ => Except.error ()

/-- A `float`-typed field: accepts a float or an int. -/
def parseRat : J → Except Unit Rat
  | .f q => Except.ok q
  | .i n => Except.ok (n : Rat)
  | _ => Except.error ()

/-- A `Dict[str, Any]`-typed field: any dict, kept raw. -/
def parseDict : J → Except Unit J
  | .obj fs => Except.ok (J.obj fs)
  | _ => Except.error ()

/-- A required pydantic field: missing means a validation error. -/
def reqField (fs : List (String × J)) (k : String) (p : J → Except Unit α) :
    Except Unit α :=
  match fs.lookup k with
  | some v => p v
  | none => Except.error ()

/-- An `Optional[...] = None` pydantic field: absent or `null` is `None`. -/
def optField (fs : List (String × J)) (k : String) (p : J → Except Unit α) :
    Except Unit (Option α) :=
  match fs.lookup k with
  | none => Except.ok none
  | some J.null => Except.ok none
  | some v => (p v).map some

/-- A pydantic field with a non-`None` default, used for `events` and
`word_count`. -/
def defField (fs : List (String × J)) (k : String) (d : α)
    (p : J → Except Unit α) : Except Unit α :=
  match fs.lookup k with
  | none => Except.ok d
  | some v => p v

/-- A `Dict[str, X]`-typed field: every value must parse. -/
def parseDictOf (p : J → Except Unit α) : J → Except Unit (List (String × α))
  | .obj fs => fs.mapM (fun kv => (p kv.2).map (fun a => (kv.1, a)))
  | _ => Except.error ()

/-- A `List[X]`-typed field: every element must parse. -/
def parseListOf (p : J → Except Unit α) : J → Except Unit (List α)
  | .arr xs => xs.mapM p
  | _ => Except.error ()

/-- A `Union[str, None]` value (formation entries). -/
def parseStrOrNone : J → Except Unit (Option String)
  | .null => Except.ok none
  | .s v => Except.ok (some v)
  | _ => Except.error ()

/-- The `market: Optional[Union[str, float]]` value, kept as the display
string that the renderer interpolates. -/
def parseMarketStr : J → Except Unit String
  | .s v => Except.ok v
  | .f q => Except.ok (pyFloatStr q)
  | .i n => Except.ok (pyFloatStr (n : Rat))
  | _ => Except.error ()

def parseIDName (j : J) : Except Unit IDName :=
  match j with
  | .obj fs => do
    let i ← reqField fs "id" parseInt
    let n ← reqField fs "name" parseStr
    Except.ok ⟨i, n⟩
  | _ => Except.error ()

def parseStadium (j : J) : Except Unit StadiumRec :=
  match j with
  | .obj fs => do
    let i ← reqField fs "id" parseInt
    let n ← reqField fs "name" parseStr
    let c ← optField fs "city" parseStr
    Except.ok ⟨i, n, c⟩
  | _ => Except.error ()

def parseStage (j : J) : Except Unit StageRec :=
  match j with
  | .obj fs => do
    let i ← reqField fs "id" parseInt
    let n ← reqField fs "name" parseStr
    let a ← reqField fs "is_active" parseBool
    Except.ok ⟨i, n, a⟩
  | _ => Except.error ()

def parseGoals (j : J) : Except Unit GoalsRec :=
  match j with
  | .obj fs => do
    let hht ← reqField fs "home_ht_goals" parseInt
    let aht ← reqField fs "away_ht_goals" parseInt
    let hft ← reqField fs "home_ft_goals" parseInt
    let aft ← reqField fs "away_ft_goals" parseInt
    let het ← reqField fs "home_et_goals" parseInt
    let aet ← reqField fs "away_et_goals" parseInt
    let hp ← reqField fs "home_pen_goals" parseInt
    let ap ← reqField fs "away_pen_goals" parseInt
    Except.ok ⟨hht, aht, hft, aft, het, aet, hp, ap⟩
  | _ => Except.error ()

def parsePlayer (j : J) : Except Unit PlayerRec :=
  match j with
  | .obj fs => do
    let i ← reqField fs "id" parseInt
    let n ← reqField fs "name" parseStr
    let pos ← optField fs "position" parseStr
    let st ← optField fs "status" parseStr
    let de ← optField fs "desc" parseStr
    Except.ok ⟨i, n, pos, st, de⟩
  | _ => Except.error ()

def parseLineupPlayer (j : J) : Except Unit LineupPlayerRec :=
  match j with
  | .obj fs => do
    let pl ← reqField fs "player" parsePlayer
    let pos ← reqField fs "position" parseStr
    Except.ok ⟨pl, pos⟩
  | _ => Except.error ()

def parseSidelinedEntry (j : J) : Except Unit SidelinedEntryRec :=
  match j with
  | .obj fs => do
    let pl ← reqField fs "player" parsePlayer
    let st ← optField fs "status" parseStr
    let de ← optField fs "desc" parseStr
    Except.ok ⟨pl, st, de⟩
  | _ => Except.error ()

def parseLineups (j : J) : Except Unit LineupsRec :=
  match j with
  | .obj fs => do
    let lt ← reqField fs "lineup_type" parseStr
    let lus ← reqField fs "lineups" (parseDictOf (parseListOf parseLineupPlayer))
    let be ← reqField fs "bench" (parseDictOf (parseListOf parseLineupPlayer))
    let si ← reqField fs "sidelined" (parseDictOf (parseListOf parseSidelinedEntry))
    let fo ← reqField fs "formation" (parseDictOf parseStrOrNone)
    Except.ok ⟨lt, lus, be, si, fo⟩
  | _ => Except.error ()

def parseOddsMarket (j : J) : Except Unit OddsMarketRec :=
  match j with
  | .obj fs => do
    let ho ← optField fs "home" parseRat
    let aw ← optField fs "away" parseRat
    let dr ← optField fs "draw" parseRat
    let tot ← optField fs "total" parseRat
    let ov ← optField fs "over" parseRat
    let un ← optField fs "under" parseRat
    let mk ← optField fs "market" parseMarketStr
    Except.ok ⟨ho, aw, dr, tot, ov, un, mk⟩
  | _ => Except.error ()

def parseOdds (j : J) : Except Unit OddsRec :=
  match j with
  | .obj fs => do
    let mw ← optField fs "match_winner" parseOddsMarket
    let ou ← optField fs "over_under" parseOddsMarket
    let hc ← optField fs "handicap" parseOddsMarket
    let ts ← optField fs "last_modified_timestamp" parseInt
    Except.ok ⟨mw, ou, hc, ts⟩
  | _ => Except.error ()

def parseMatchEvent (j : J) : Except Unit MatchEventRec :=
  match j with
  | .obj fs => do
    let et ← reqField fs "event_type" parseStr
    let em ← reqField fs "event_minute" parseStr
    let tm ← reqField fs "team" parseStr
    let pl ← optField fs "player" parsePlayer
    let asp ← optField fs "assist_player" parsePlayer
    let pin ← optField fs "player_in" parsePlayer
    let pout ← optField fs "player_out" parsePlayer
    Except.ok ⟨et, em, tm, pl, asp, pin, pout⟩
  | _ => Except.error ()

def parseWeather (j : J) : Except Unit WeatherRec :=
  match j with
  | .obj fs => do
    let tf ← reqField fs "temp_f" parseRat
    let tc ← reqField fs "temp_c" parseRat
    let de ← reqField fs "description" parseStr
    Except.ok ⟨tf, tc, de⟩
  | _ => Except.error ()

def parsePrediction (j : J) : Except Unit PredictionRec :=
  match j with
  | .obj fs => do
    let pt ← reqField fs "type" parseStr
    let ch ← reqField fs "choice" parseStr
    let tot ← optField fs "total" parseStr
    Except.ok ⟨pt, ch, tot⟩
  | _ => Except.error ()

def parsePreviewData (j : J) : Except Unit PreviewDataRec :=
  match j with
  | .obj fs => do
    let we ← optField fs "weather" parseWeather
    let ex ← reqField fs "excitement_rating" parseRat
    let pr ← optField fs "prediction" parsePrediction
    Except.ok ⟨we, ex, pr⟩
  | _ => Except.error ()

def parseDetailedPreview (j : J) : Except Unit DetailedPreviewRec :=
  match j with
  | .obj fs => do
    let wc ← defField fs "word_count" 0 parseInt
    let md ← reqField fs "match_data" parsePreviewData
    Except.ok ⟨wc, md⟩
  | _ => Except.error ()

/-- `FootballMatch.model_validate` on a raw JSON payload (the constructor
call at the end of `_get_complete_match`). -/
def validateFromJ (raw : J) : Except Unit FootballMatch :=
  match raw with
  | .obj fs => do
    let i ← reqField fs "id" parseInt
    let date ← reqField fs "date" parseStr
    let time ← reqField fs "time" parseStr
    let country ← optField fs "country" parseIDName
    let league ← reqField fs "league" parseIDName
    let stage ← optField fs "stage" parseStage
    let teams ← reqField fs "teams" (parseDictOf parseIDName)
    let stadium ← optField fs "stadium" parseStadium
    let status ← reqField fs "status" parseStr
    let minute ← reqField fs "minute" parseInt
    let winner ← reqField fs "winner" parseStr
    let het ← optField fs "has_extra_time" parseBool
    let hpen ← optField fs "has_penalties" parseBool
    let goals ← reqField fs "goals" parseGoals
    let events ← defField fs "events" [] (parseListOf parseMatchEvent)
    let odds ← optField fs "odds" parseOdds
    let lineups ← optField fs "lineups" parseLineups
    let mp ← optField fs "match_preview" parseDict
    let dp ← optField fs "detailed_preview" parseDetailedPreview
    let standing ← optField fs "standing" parseDict
    let h2h ← optField fs "h2h" parseDict
    Except.ok
      { id := i, date := date, time := time, country := country,
        league := league, stage := stage, teams := teams, stadium := stadium,
        status := status, minute := minute, winner := winner,
        hasExtraTime := het, hasPenalties := hpen, goals := goals,
        events := events, odds := odds, lineups := lineups,
        matchPreview := mp, detailedPreview := dp, standing := standing,
        h2h := h2h }
  | _ => Except.error ()

/-- Rendering a raw match record: validate the pydantic model, then run
`generate_report_main`.  An `Except.error` is a raised exception. -/
def renderRecord (raw : J) : Except Unit String :=
  (validateFromJ raw).map generateReportMain

theorem strAppendAssoc (a b c : String) : a ++ b ++ c = a ++ (b ++ c) := by
  rcases a with ⟨la⟩
  rcases b with ⟨lb⟩
  rcases c with ⟨lc⟩
  show String.mk ((la ++ lb) ++ lc) = String.mk (la ++ (lb ++ lc))
  rw [List.append_assoc]

/-- A raw `goals` payload with the eight required integer sub-scores. -/
def goalsObj (a b c d e f g h : Int) : J :=
  J.obj [("home_ht_goals", J.i a), ("away_ht_goals", J.i b),
         ("home_ft_goals", J.i c), ("away_ft_goals", J.i d),
         ("home_et_goals", J.i e), ("away_et_goals", J.i f),
         ("home_pen_goals", J.i g), ("away_pen_goals", J.i h)]

/-- A raw `teams` payload with a home and an away side. -/
def teamsObj (hI : Int) (hN : String) (aI : Int) (aN : String) : J :=
  J.obj [("home", J.obj [("id", J.i hI), ("name", J.s hN)]),
         ("away", J.obj [("id", J.i aI), ("name", J.s aN)])]

/-- A match record carrying only the four fields `id`, `teams`, `league`,
`goals`, each well-formed, and nothing else. -/
def minimalFourFieldRecord : J :=
  J.obj [("id", J.i 1), ("teams", teamsObj 10 "Alpha" 20 "Beta"),
         ("league", J.obj [("id", J.i 5), ("name", J.s "League")]),
         ("goals", goalsObj 0 0 0 0 0 0 0 0)]

/-- A match record carrying exactly the nine fields the `FootballMatch`
pydantic model declares without a default: `id`, `date`, `time`, `league`,
`teams`, `status`, `minute`, `winner`, `goals`. -/
def nineFieldRecord (i mi lgI hI aI : Int) (dt tm st wn lgN hN aN : String)
    (g1 g2 g3 g4 g5 g6 g7 g8 : Int) : J :=
  J.obj [("id", J.i i), ("date", J.s dt), ("time", J.s tm),
         ("league", J.obj [("id", J.i lgI), ("name", J.s lgN)]),
         ("teams", teamsObj hI hN aI aN),
         ("status", J.s st), ("minute", J.i mi), ("winner", J.s wn),
         ("goals", goalsObj g1 g2 g3 g4 g5 g6 g7 g8)]

/-- The `FootballMatch` value that validating `nineFieldRecord` produces. -/
def nineFieldMatch (i mi lgI hI aI : Int) (dt tm st wn lgN hN aN : String)
    (g1 g2 g3 g4 g5 g6 g7 g8 : Int) : FootballMatch :=
  { id := i, date := dt, time := tm, country := none,
    league := ⟨lgI, lgN⟩, stage := none,
    teams := [("home", ⟨hI, hN⟩), ("away", ⟨aI, aN⟩)], stadium := none,
    status := st, minute := mi, winner := wn,
    hasExtraTime := none, hasPenalties := none,
    goals := ⟨g1, g2, g3, g4, g5, g6, g7, g8⟩,
    events := [], odds := none, lineups := none, matchPreview := none,
    detailedPreview := none, standing := none, h2h := none }

/-- C3 counterexample: the `FootballMatch` model also declares `date`,
`time`, `status`, `minute` and `winner` without defaults, so validating a
record that carries only `id`, `teams`, `league` and `goals` raises a
`ValidationError` and rendering fails. -/
theorem render_four_fields_fails :
    renderRecord minimalFourFieldRecord = Except.error () := by rfl

/-- C3 amended: rendering never raises for a match record containing
exactly the nine fields the model requires (`id`, `date`, `time`, `league`,
`teams`, `status`, `minute`, `winner`, `goals`) with every other field
absent, and the rendered text still contains the header line (as the first
line), a status line and a score line. -/
theorem render_nine_required_fields_spec (i mi lgI hI aI : Int)
    (dt tm st wn lgN hN aN : String) (g1 g2 g3 g4 g5 g6 g7 g8 : Int) :
    ∃ m, validateFromJ
        (nineFieldRecord i mi lgI hI aI dt tm st wn lgN hN aN
          g1 g2 g3 g4 g5 g6 g7 g8) = Except.ok m ∧
      renderRecord
        (nineFieldRecord i mi lgI hI aI dt tm st wn lgN hN aN
          g1 g2 g3 g4 g5 g6 g7 g8) = Except.ok (generateReportMain m) ∧
      (generateReportLines m).head? =
        some (cleanName (some hN) ++ " (Home) vs " ++ cleanName (some aN) ++
          " (Away)") ∧
      (∃ r, ("Status: " ++ r) ∈ generateReportLines m) ∧
      (∃ r, ("Score: FT " ++ r) ∈ generateReportLines m) := by
  refine ⟨nineFieldMatch i mi lgI hI aI dt tm st wn lgN hN aN
    g1 g2 g3 g4 g5 g6 g7 g8, rfl, rfl, rfl, ?_, ?_⟩
  · by_cases h1 : pyLower (pyStrip st) = "finished"
    · refine ⟨"FINISHED", ?_⟩
      have e : ("Status: " ++ "FINISHED" : String) = "Status: FINISHED" := by decide
      rw [e]
      simp [generateReportLines, nineFieldMatch, h1]
    · by_cases h2 : pyLower (pyStrip st) = "live"
      · refine ⟨"LIVE | Minute: " ++ toString mi, ?_⟩
        have e : ("Status: " ++ "LIVE | Minute: " : String) =
          "Status: LIVE | Minute: " := by decide
        rw [← strAppendAssoc, e]
        simp [generateReportLines, nineFieldMatch, h1, h2]
      · refine ⟨pyUpper st, ?_⟩
        simp [generateReportLines, nineFieldMatch, h1, h2]
  · refine ⟨cleanName (some hN) ++ (" (Home) " ++ (toString g3 ++ ("–" ++
      (toString g4 ++ (" " ++ (cleanName (some aN) ++ (" (Away) | HT " ++
      (toString g1 ++ ("–" ++ toString g2))))))))), ?_⟩
    have hlkA : List.lookup "away"
        [("home", ({ id := hI, name := hN } : IDName)),
         ("away", { id := aI, name := aN })] =
        some { id := aI, name := aN } := by rfl
    have hlkH : List.lookup "home"
        [("home", ({ id := hI, name := hN } : IDName)),
         ("away", { id := aI, name := aN })] =
        some { id := hI, name := hN } := by rfl
    simp [generateReportLines, nineFieldMatch, strAppendAssoc, hlkA, hlkH]

/-- A match whose only enrichment is an odds block with no markets and the
given `last_modified_timestamp`. -/
def oddsOnlyMatch (ts : Option Int) : FootballMatch :=
  { id := 7, date := "01/05/2024", time := "18:00", country := none,
    league := ⟨5, "League"⟩, stage := none,
    teams := [("home", ⟨10, "Alpha"⟩), ("away", ⟨20, "Beta"⟩)],
    stadium := none, status := "finished", minute := 0, winner := "Alpha",
    hasExtraTime := none, hasPenalties := none,
    goals := ⟨0, 0, 2, 1, 0, 0, 0, 0⟩, events := [],
    odds := some
      { matchWinner := none, overUnder := none, handicap := none,
        lastModifiedTimestamp := ts },
    lineups := none, matchPreview := none, detailedPreview := none,
    standing := none, h2h := none }

/-- C9: `_fmt_ts` treats the epoch second count 0 exactly like an absent
timestamp (`if not ts` is true for both), returning `None`, so the rendered
Odds heading for a `last_modified_timestamp` of 0 is the bare `"Odds"`
without the `" (last update: ...)"` suffix — even though 0 is a
representable epoch second count (a nonzero timestamp such as 1700000000
does produce the suffix). -/
theorem fmtTs_epoch_zero_spec :
    fmtTs (some 0) = none ∧ fmtTs none = none ∧ oddsSuffix (some 0) = "" ∧
    "Odds" ∈ generateReportLines (oddsOnlyMatch (some 0)) ∧
    "Odds (last update: 2023-11-14 22:13 UTC)" ∈
      generateReportLines (oddsOnlyMatch (some 1700000000)) ∧
    fmtTs (some 1700000000) = some "2023-11-14 22:13 UTC" := by
  refine ⟨rfl, rfl, rfl, ?_, ?_, ?_⟩ <;> decide

/-- The natural number denoted by a run of decimal digit characters
(0 for the empty run; callers require non-emptiness where Python does). -/
def natOfDigits (cs : List Char) : Nat :=
  cs.foldl (fun acc c => acc * 10 + (c.toNat - 48)) 0

/-- `int(s)` on a string: optional sign, then decimal digits, with
surrounding whitespace stripped; anything else raises (`none`). -/
def strToInt (s : String) : Option Int :=
  let cs := pyStripList s.data
  match cs with
  | '-' :: rest =>
    if rest ≠ [] ∧ rest.all Char.isDigit then some (-(natOfDigits rest : Int))
    else none
  | '+' :: rest =>
    if rest ≠ [] ∧ rest.all Char.isDigit then some ((natOfDigits rest : Int))
    else none
  | _ =>
    if cs ≠ [] ∧ cs.all Char.isDigit then some ((natOfDigits cs : Nat) : Int)
    else none

/-- An unsigned decimal literal with an optional fractional part
(`"12"`, `"12.5"`, `".5"`, `"5."`), as Python `float()` accepts.
Exponent notation and `inf`/`nan` are not modelled (no claim involves
them). -/
def parseDecimalChars (cs : List Char) : Option Rat :=
  let intPart := cs.takeWhile (fun c => c ≠ '.')
  match cs.dropWhile (fun c => c ≠ '.') with
  | [] =>
    if intPart ≠ [] ∧ intPart.all Char.isDigit then
      some ((natOfDigits intPart : Nat) : Rat)
    else none
  | _ :: fracPart =>
    if fracPart.any (fun c => c = '.') then none
    else if intPart = [] ∧ fracPart = [] then none
    else if intPart.all Char.isDigit ∧ fracPart.all Char.isDigit then
      some (((natOfDigits intPart : Nat) : Rat) +
        ((natOfDigits fracPart : Nat) : Rat) / ((10 : Rat) ^ fracPart.length))
    else none

/-- `float(s)` on a string: optional sign around a decimal literal, with
surrounding whitespace stripped. -/
def strToFloat (s : String) : Option Rat :=
  let cs := pyStripList s.data
  match cs with
  | '-' :: rest => (parseDecimalChars rest).map (fun q => -q)
  | '+' :: rest => parseDecimalChars rest
  | _ => parseDecimalChars cs

/-- Truncation toward zero (Python `int()` on a float). -/
def ratTrunc (q : Rat) : Int :=
  if q ≥ 0 then ⌊q⌋ else -⌊-q⌋

/-- `int(x)` on a JSON value: ints and bools pass through, floats truncate,
strings must be integer literals; everything else raises (`none`). -/
def pyInt : J → Option Int
  | .i n => some n
  | .b v => some (if v then 1 else 0)
  | .f q => some (ratTrunc q)
  | .s v => strToInt v
  | _ => none

/-- `float(x)` on a JSON value: numbers and bools convert, strings must be
decimal literals; everything else raises (`none`). -/
def pyFloat : J → Option Rat
  | .i n => some ((n : Int) : Rat)
  | .f q => some q
  | .b v => some (if v then 1 else 0)
  | .s v => strToFloat v
  | _ => none

/-- `str(match.get("status") or "").strip().lower()` of `_bundle`
(src/main.py line 224). -/
def statusNorm (m : J) : String :=
  match m.get "status" with
  | some v => if v.pyFalsy then "" else pyLower (pyStrip (pyStr v))
  | none => ""

/-- The goal-count part of the label check of `_bundle`:
`isinstance(hft, int) and isinstance(aft, int) and hft >= 0 and aft >= 0`
followed by `int(hft + aft)`. -/
def labelFromGoals : Option Int → Option Int → Option Int
  | some h, some a => if 0 ≤ h ∧ 0 ≤ a then some (h + a) else none
  | _, _ => none

/-- The outcome-label computation of `_bundle` (src/main.py lines 224-229):
the full-time goal total, only when the normalized status is `"finished"`
and both full-time goal counts are ints (per `isinstance`) that are
non-negative; otherwise `None`. -/
def labelOf (m : J) : Option Int :=
  let hft := safeGet m [PathKey.key "goals", PathKey.key "home_ft_goals"]
  let aft := safeGet m [PathKey.key "goals", PathKey.key "away_ft_goals"]
  if statusNorm m = "finished" then labelFromGoals (hft.bind J.asInt) (aft.bind J.asInt)
  else none

theorem labelFromGoals_none_left (a : Option Int) :
    labelFromGoals none a = none := by
  cases a <;> rfl

theorem labelFromGoals_none_right (h : Option Int) :
    labelFromGoals h none = none := by
  cases h <;> rfl

/-- C6: the finished-match outcome label equals `home_ft_goals +
away_ft_goals` exactly when the record's status, trimmed and lowercased, is
`"finished"` and both full-time goal counts are present non-negative
integers; in every other case (for example status `"live"` with the same
goal counts) the label is `None`. -/
theorem label_spec :
    (∀ (m : J) (n : Int),
      labelOf m = some n ↔
        (statusNorm m = "finished" ∧
          ∃ h a,
            (safeGet m [PathKey.key "goals", PathKey.key "home_ft_goals"]).bind
              J.asInt = some h ∧
            (safeGet m [PathKey.key "goals", PathKey.key "away_ft_goals"]).bind
              J.asInt = some a ∧
            0 ≤ h ∧ 0 ≤ a ∧ n = h + a)) ∧
    labelOf (J.obj [("status", J.s "finished"),
      ("goals", goalsObj 0 0 2 1 0 0 0 0)]) = some 3 ∧
    labelOf (J.obj [("status", J.s "live"),
      ("goals", goalsObj 0 0 2 1 0 0 0 0)]) = none := by
  refine ⟨?_, by decide, by decide⟩
  intro m n
  constructor
  · intro hl
    simp only [labelOf] at hl
    by_cases hs : statusNorm m = "finished"
    · rw [if_pos hs] at hl
      rcases hh : (safeGet m [PathKey.key "goals",
          PathKey.key "home_ft_goals"]).bind J.asInt with _ | h
      · rw [hh, labelFromGoals_none_left] at hl; exact absurd hl (by simp)
      · rcases ha : (safeGet m [PathKey.key "goals",
            PathKey.key "away_ft_goals"]).bind J.asInt with _ | a
        · rw [hh, ha, labelFromGoals_none_right] at hl; exact absurd hl (by simp)
        · rw [hh, ha] at hl
          change (if 0 ≤ h ∧ 0 ≤ a then some (h + a) else none) = some n at hl
          by_cases hcond : 0 ≤ h ∧ 0 ≤ a
          · rw [if_pos hcond] at hl
            exact ⟨hs, h, a, rfl, rfl, hcond.1, hcond.2, (Option.some.inj hl).symm⟩
          · rw [if_neg hcond] at hl; exact absurd hl (by simp)
    · rw [if_neg hs] at hl; exact absurd hl (by simp)
  · rintro ⟨hs, h, a, hh, ha, h0, a0, rfl⟩
    simp only [labelOf]
    rw [if_pos hs, hh, ha]
    change (if 0 ≤ h ∧ 0 ≤ a then some (h + a) else none) = some (h + a)
    rw [if_pos ⟨h0, a0⟩]

/-- `float(x or 0)`: an absent or falsy value counts as 0, otherwise
convert (where `none` is a raised conversion error). -/
def orZeroFloat : Option J → Option Rat
  | none => some 0
  | some v => if v.pyFalsy then some 0 else pyFloat v

/-- The guarded average of `_bundle` (src/main.py lines 242-246):
`if gp and float(gp) > 0: avg = (float(s1 or 0) + float(s2 or 0)) / float(gp)`
inside `try/except`, with `none` for both "condition false" and "an
exception was caught". -/
def avgInner (gp s1 s2 : Option J) : Option Rat :=
  match gp with
  | none => none
  | some g =>
    if g.pyFalsy then none
    else
      match pyFloat g with
      | none => none
      | some gq =>
        if gq > 0 then
          match orZeroFloat s1, orZeroFloat s2 with
          | some a, some b => some ((a + b) / gq)
          | _, _ => none
        else none

/-- The average computation once the `overall` aggregate has been probed:
only a dict contributes (`if isinstance(h2h_overall, dict)`). -/
def avgFromOverall : Option J → Option Rat
  | some (J.obj fs) =>
    avgInner (fs.lookup "overall_games_played")
      (fs.lookup "overall_team1_scored") (fs.lookup "overall_team2_scored")
  | _ => none

/-- `_safe_get(h2h, ["stats", "overall"]) if isinstance(h2h, dict) else None`
(src/main.py line 236). -/
def overallOf (h2h : Option J) : Option J :=
  match h2h with
  | some x => if x.isObj then safeGet x [PathKey.key "stats", PathKey.key "overall"] else none
  | none => none

/-- The h2h-derived average goals per game of `_bundle`
(src/main.py lines 236-246). -/
def avgGoalsOf (h2h : Option J) : Option Rat :=
  avgFromOverall (overallOf h2h)

theorem asNum_pyFloat {v : J} {q : Rat} (h : v.asNum = some q) :
    pyFloat v = some q := by
  cases v <;> simp_all [J.asNum, pyFloat]

theorem asNum_pos_not_falsy {v : J} {q : Rat} (h : v.asNum = some q)
    (hq : 0 < q) : v.pyFalsy = false := by
  cases v with
  | i n =>
    simp only [J.asNum, Option.some.injEq] at h
    simp only [J.pyFalsy, beq_eq_false_iff_ne, ne_eq]
    intro h0
    rw [h0] at h
    rw [← h] at hq
    simp at hq
  | f q2 =>
    simp only [J.asNum, Option.some.injEq] at h
    simp only [J.pyFalsy, beq_eq_false_iff_ne, ne_eq]
    intro h0
    rw [h0] at h
    rw [← h] at hq
    simp at hq
  | b v =>
    simp only [J.asNum, Option.some.injEq] at h
    cases v
    · rw [if_neg (by simp)] at h
      rw [← h] at hq
      simp at hq
    · simp [J.pyFalsy]
  | null => simp [J.asNum] at h
  | s v => simp [J.asNum] at h
  | arr xs => simp [J.asNum] at h
  | obj fs => simp [J.asNum] at h

theorem asNum_zero_falsy {v : J} (h : v.asNum = some 0) : v.pyFalsy = true := by
  cases v with
  | i n =>
    simp only [J.asNum, Option.some.injEq] at h
    have : n = 0 := by exact_mod_cast h
    simp [J.pyFalsy, this]
  | f q2 =>
    simp only [J.asNum, Option.some.injEq] at h
    simp [J.pyFalsy, h]
  | b v =>
    cases v
    · simp [J.pyFalsy]
    · simp [J.asNum] at h
  | null => simp [J.asNum] at h
  | s v => simp [J.asNum] at h
  | arr xs => simp [J.asNum] at h
  | obj fs => simp [J.asNum] at h

theorem asNum_orZero {v : J} {q : Rat} (h : v.asNum = some q) :
    orZeroFloat (some v) = some q := by
  by_cases hf : v.pyFalsy
  · have hq : q = 0 := by
      cases v with
      | i n =>
        simp only [J.pyFalsy, beq_iff_eq] at hf
        simp only [J.asNum, Option.some.injEq] at h
        rw [hf] at h
        simp at h
        exact h.symm
      | f q2 =>
        simp only [J.pyFalsy, beq_iff_eq] at hf
        simp only [J.asNum, Option.some.injEq] at h
        rw [hf] at h
        exact h.symm
      | b bv =>
        cases bv
        · simp only [J.asNum, Option.some.injEq] at h
          rw [if_neg (by simp)] at h
          exact h.symm
        · simp [J.pyFalsy] at hf
      | null => simp [J.asNum] at h
      | s w => simp [J.asNum] at h
      | arr xs => simp [J.asNum] at h
      | obj fs => simp [J.asNum] at h
    simp [orZeroFloat, hf, hq]
  · simp [orZeroFloat, hf, asNum_pyFloat h]

/-- C7: the h2h-derived average goals per game equals
`(overall_team1_scored + overall_team2_scored) / overall_games_played`
whenever the games-played count is a number greater than 0 and the scored
counts are numbers; it is `None` when the games-played count is absent or
zero; a value that fails `float()` conversion (in the games-played or
scored slot) yields `None` rather than an exception (the `try/except` is
modelled by the `none` branches of `avgInner`); and an absent h2h payload
yields `None`. -/
theorem avg_goals_spec :
    (∀ (fs : List (String × J)) (gv s1v s2v : J) (gq aq bq : Rat),
      fs.lookup "overall_games_played" = some gv → gv.asNum = some gq →
      0 < gq →
      fs.lookup "overall_team1_scored" = some s1v → s1v.asNum = some aq →
      fs.lookup "overall_team2_scored" = some s2v → s2v.asNum = some bq →
      avgFromOverall (some (J.obj fs)) = some ((aq + bq) / gq)) ∧
    (∀ fs, fs.lookup "overall_games_played" = none →
      avgFromOverall (some (J.obj fs)) = none) ∧
    (∀ fs gv, fs.lookup "overall_games_played" = some gv →
      gv.asNum = some 0 → avgFromOverall (some (J.obj fs)) = none) ∧
    (∀ fs gv, fs.lookup "overall_games_played" = some gv →
      gv.pyFalsy = false → pyFloat gv = none →
      avgFromOverall (some (J.obj fs)) = none) ∧
    (∀ fs gv s1v gq, fs.lookup "overall_games_played" = some gv →
      pyFloat gv = some gq → 0 < gq → gv.pyFalsy = false →
      fs.lookup "overall_team1_scored" = some s1v → s1v.pyFalsy = false →
      pyFloat s1v = none → avgFromOverall (some (J.obj fs)) = none) ∧
    avgGoalsOf none = none := by
  refine ⟨?_, ?_, ?_, ?_, ?_, rfl⟩
  · intro fs gv s1v s2v gq aq bq h1 h2 h3 h4 h5 h6 h7
    have hnf := asNum_pos_not_falsy h2 h3
    have hpf := asNum_pyFloat h2
    simp [avgFromOverall, avgInner, h1, h4, h6, hnf, hpf, h3,
      asNum_orZero h5, asNum_orZero h7]
  · intro fs h1
    simp [avgFromOverall, avgInner, h1]
  · intro fs gv h1 h2
    have hf := asNum_zero_falsy h2
    simp [avgFromOverall, avgInner, h1, hf]
  · intro fs gv h1 h2 h3
    simp [avgFromOverall, avgInner, h1, h2, h3]
  · intro fs gv s1v gq h1 h2 h3 h4 h5 h6 h7
    simp only [avgFromOverall, avgInner, h1, h2, h4, Bool.false_eq_true,
      if_false, if_pos h3]
    have ho : orZeroFloat (List.lookup "overall_team1_scored" fs) = none := by
      rw [h5]
      simp [orZeroFloat, h6, h7]
    rw [ho]

/-- Witness for C7: games played 4, scored 6 and 3 gives average 9/4. -/
theorem avg_goals_spec_witness :
    avgFromOverall (some (J.obj [("overall_games_played", J.i 4),
      ("overall_team1_scored", J.i 6), ("overall_team2_scored", J.i 3)])) =
      some ((6 + 3) / 4) :=
  avg_goals_spec.1 [("overall_games_played", J.i 4),
      ("overall_team1_scored", J.i 6), ("overall_team2_scored", J.i 3)]
    (J.i 4) (J.i 6) (J.i 3) 4 6 3 rfl rfl (by norm_num) rfl rfl rfl rfl

/-- Split a character list on a separator (Python `str.split(sep)`:
`n` separators yield `n+1` groups, possibly empty). -/
def splitChar (sep : Char) : List Char → List (List Char)
  | [] => [[]]
  | c :: rest =>
    let r := splitChar sep rest
    if c = sep then [] :: r
    else
      match r with
      | g :: gs => (c :: g) :: gs
      | [] => [[c]]

/-- One numeric component of a `strptime` field: non-empty, all digits, at
most the field width. -/
def numComp (cs : List Char) (maxLen : Nat) : Option Nat :=
  if cs ≠ [] ∧ cs.length ≤ maxLen ∧ cs.all Char.isDigit then
    some (natOfDigits cs)
  else none

def isLeapYear (y : Nat) : Bool :=
  (y % 4 == 0 && y % 100 != 0) || y % 400 == 0

def daysInMonth (y m : Nat) : Nat :=
  if m = 2 then (if isLeapYear y then 29 else 28)
  else if m = 4 ∨ m = 6 ∨ m = 9 ∨ m = 11 then 30
  else 31

/-- The calendar validation `strptime`/`datetime` perform: year 1..9999,
month 1..12, day within the month. -/
def validDate (y m d : Nat) : Bool :=
  1 ≤ y && y ≤ 9999 && 1 ≤ m && m ≤ 12 && 1 ≤ d && d ≤ daysInMonth y m

/-- `%H:%M` parsing of the time component. -/
def parseTimeComp (cs : List Char) : Option (Nat × Nat) :=
  match splitChar ':' cs with
  | [hh, mm] => do
    let h ← numComp hh 2
    let mi ← numComp mm 2
    if h ≤ 23 ∧ mi ≤ 59 then some (h, mi) else none
  | _ => none

/-- `%d<sep>%m<sep>%Y` parsing of the date component. -/
def parseDateDMY (sep : Char) (cs : List Char) : Option (Nat × Nat × Nat) :=
  match splitChar sep cs with
  | [dd, mm, yy] => do
    let d ← numComp dd 2
    let m ← numComp mm 2
    let y ← numComp yy 4
    if validDate y m d then some (y, m, d) else none
  | _ => none

/-- `%Y-%m-%d` parsing of the date component. -/
def parseDateYMD (cs : List Char) : Option (Nat × Nat × Nat) :=
  match splitChar '-' cs with
  | [yy, mm, dd] => do
    let y ← numComp yy 4
    let m ← numComp mm 2
    let d ← numComp dd 2
    if validDate y m d then some (y, m, d) else none
  | _ => none

/-- `_parse_dt` of src/main.py: `None` for falsy date/time values,
otherwise `str(...)` both, strip them, and try the three formats
`%d/%m/%Y %H:%M`, `%d-%m-%Y %H:%M`, `%Y-%m-%d %H:%M` in order, returning
`None` when all fail.  The result is the UTC timestamp
(year, month, day, hour, minute). -/
def parseDt (dateS timeS : Option J) : Option (Nat × Nat × Nat × Nat × Nat) :=
  match dateS, timeS with
  | some dv, some tv =>
    if dv.pyFalsy || tv.pyFalsy then none
    else
      let d := pyStripList (pyStr dv).data
      let t := pyStripList (pyStr tv).data
      match parseTimeComp t with
      | none => none
      | some hm =>
        match parseDateDMY '/' d with
        | some ymd => some (ymd.1, ymd.2.1, ymd.2.2, hm.1, hm.2)
        | none =>
          match parseDateDMY '-' d with
          | some ymd => some (ymd.1, ymd.2.1, ymd.2.2, hm.1, hm.2)
          | none =>
            match parseDateYMD d with
            | some ymd => some (ymd.1, ymd.2.1, ymd.2.2, hm.1, hm.2)
            | none => none
  | _, _ => none

/-- `dt.isoformat()` of the parsed UTC kickoff
(`"YYYY-MM-DDTHH:MM:00+00:00"`). -/
def kickoffIso (p : Option (Nat × Nat × Nat × Nat × Nat)) : Option String :=
  p.map (fun c =>
    padZero 4 (toString c.1) ++ "-" ++ padZero 2 (toString c.2.1) ++ "-" ++
    padZero 2 (toString c.2.2.1) ++ "T" ++ padZero 2 (toString c.2.2.2.1) ++
    ":" ++ padZero 2 (toString c.2.2.2.2) ++ ":00+00:00")

/-- The four upstream endpoints used by `_bundle` and
`_get_complete_match`, as oracles: each call either returns a JSON payload
or raises (`Except.error`). -/
structure Api where
  matchEp : Int → Except Unit J
  matchPreviewEp : Int → Except Unit J
  standingEp : Int → Option String → Except Unit J
  h2hEp : Int → Int → Except Unit J

/-- `_extract_preview` of src/main.py: `None` unless the payload is a dict
with a dict `match_data` and a non-empty list `content` (taken from
`content` or, when that is falsy, `preview_content`); the
`int(word_count or 0)` conversion can raise (`Except.error`), which the
caller `_bundle` catches. -/
def extractPreview (pr : J) : Except Unit (Option J) :=
  match pr with
  | J.obj fs =>
    let matchData := fs.lookup "match_data"
    let content :=
      match fs.lookup "content" with
      | some v => if v.pyFalsy then fs.lookup "preview_content" else some v
      | none => fs.lookup "preview_content"
    match matchData, content with
    | some (J.obj mdf), some (J.arr cs) =>
      if cs.isEmpty then Except.ok none
      else
        match (match fs.lookup "word_count" with
               | none => some 0
               | some w => if w.pyFalsy then some 0 else pyInt w) with
        | some wc =>
          Except.ok (some (J.obj [("word_count", J.i wc),
            ("match_data", J.obj mdf), ("content", J.arr cs)]))
        | none => Except.error ()
    | _, _ => Except.ok none
  | _ => Except.ok none

/-- `_extract_preview_signals` of src/report.py: `.get` on a non-dict
payload raises; a non-dict `match_data` gives `None`; otherwise the
signals dict, where `int(word_count or 0)` can raise. -/
def extractPreviewSignals (pr : J) : Except Unit (Option J) :=
  match pr with
  | J.obj fs =>
    match fs.lookup "match_data" with
    | some (J.obj md) =>
      match (match fs.lookup "word_count" with
             | none => some 0
             | some w => if w.pyFalsy then some 0 else pyInt w) with
      | some wc =>
        Except.ok (some (J.obj [("word_count", J.i wc),
          ("match_data", J.obj md)]))
      | none => Except.error ()
    | _ => Except.ok none
  | _ => Except.error ()

/-- Python dict assignment `d[k] = v`: replace in place when the key
exists, else append (insertion order). -/
def setKey (fs : List (String × J)) (k : String) (v : J) : List (String × J) :=
  if (fs.lookup k).isSome then
    fs.map (fun kv => if kv.1 == k then (k, v) else kv)
  else fs ++ [(k, v)]

/-- Result of `_implied_probs_ou` (src/main.py lines 153-171). -/
inductive ImpliedOU where
  | unavailable : ImpliedOU
  | available (total : Option J) (over under overround : Rat) : ImpliedOU

/-- `_implied_probs_ou` of src/main.py: both `over` and `under` must be
numeric and greater than `1e-9`; `total` is passed through unmodified. -/
def impliedProbsOU (ou : Option J) : ImpliedOU :=
  match ou with
  | some (J.obj fs) =>
    match numAt fs "over", numAt fs "under" with
    | some ov, some un =>
      if ov > oddsEps ∧ un > oddsEps then
        let io := 1 / ov
        let iu := 1 / un
        let s := io + iu
        if s ≤ 0 then ImpliedOU.unavailable
        else ImpliedOU.available (fs.lookup "total") (io / s) (iu / s) s
      else ImpliedOU.unavailable
    | _, _ => ImpliedOU.unavailable
  | _ => ImpliedOU.unavailable

/-- Result of `_handicap_available` (src/main.py lines 174-181). -/
inductive HandicapAvail where
  | unavailable : HandicapAvail
  | available (market : J) : HandicapAvail

/-- `_handicap_available` of src/main.py: available iff the market value is
present (not `None`) and at least one of the home/away quotes is present. -/
def handicapAvailable (hc : Option J) : HandicapAvail :=
  match hc with
  | some (J.obj fs) =>
    match fs.lookup "market" with
    | none => HandicapAvail.unavailable
    | some J.null => HandicapAvail.unavailable
    | some mv =>
      let homeNone :=
        match fs.lookup "home" with
        | none => true
        | some J.null => true
        | some _ => false
      let awayNone :=
        match fs.lookup "away" with
        | none => true
        | some J.null => true
        | some _ => false
      if homeNone && awayNone then HandicapAvail.unavailable
      else HandicapAvail.available mv
  | _ => HandicapAvail.unavailable

/-- The `features` dict built by `_bundle` (src/main.py lines 248-274). -/
structure Features where
  matchId : Option J
  status : Option J
  kickoffDate : Option J
  kickoffTime : Option J
  kickoffIsoStr : Option String
  teamsHome : Option J
  teamsAway : Option J
  league : Option J
  previewHasPreview : Bool
  previewWordCount : Option J
  excitementRating : Option J
  implied1x2 : Implied1x2
  impliedOverUnder : ImpliedOU
  handicap : HandicapAvail
  standingHome : Option J
  standingAway : Option J
  standingSeasonParam : Option String
  h2hOverall : Option J
  avgGoalsPerGame : Option Rat
  label : Option Int

/-- The bundle dict returned by `_bundle` (src/main.py lines 276-283). -/
structure Bundle where
  matchJ : J
  preview : Option J
  standing : Option J
  standingRowHome : Option J
  standingRowAway : Option J
  h2h : Option J
  features : Features

/-- The preview block of `_bundle` (src/main.py lines 193-199): only
attempted when `match_preview.has_preview is True`; the whole of
`int(match["id"])`, the fetch and `_extract_preview` run inside
`try/except`, so every failure yields `None`. -/
def bundlePreview (api : Api) (m : J) : Option J :=
  match (match m.get "match_preview" with
         | some (J.obj fs) => fs
         | _ => []).lookup "has_preview" with
  | some (J.b true) =>
    match m.get "id" with
    | none => none
    | some idv =>
      match pyInt idv with
      | none => none
      | some mid =>
        match api.matchPreviewEp mid with
        | Except.error _ => none
        | Except.ok pr =>
          match extractPreview pr with
          | Except.error _ => none
          | Except.ok res => res
  | _ => none

/-- The standing block of `_bundle` (src/main.py lines 201-212): only
attempted for an int league id; fetch and row lookups run inside
`try/except`, a failure resetting all three results to `None`. -/
def bundleStanding (api : Api) (m : J) (season : Option String) :
    Option J × Option J × Option J :=
  match (safeGet m [PathKey.key "league", PathKey.key "id"]).bind J.asInt with
  | some lid =>
    match api.standingEp lid season with
    | Except.error _ => (none, none, none)
    | Except.ok stg =>
      (some stg,
       (match (safeGet m [PathKey.key "teams", PathKey.key "home",
            PathKey.key "id"]).bind J.asInt with
        | some hid => standingLookup stg hid
        | none => none),
       (match (safeGet m [PathKey.key "teams", PathKey.key "away",
            PathKey.key "id"]).bind J.asInt with
        | some aid => standingLookup stg aid
        | none => none))
  | none => (none, none, none)

/-- The h2h block of `_bundle` (src/main.py lines 214-219): only attempted
for distinct int team ids; a fetch failure yields `None`. -/
def bundleH2h (api : Api) (m : J) : Option J :=
  match (safeGet m [PathKey.key "teams", PathKey.key "home",
      PathKey.key "id"]).bind J.asInt,
    (safeGet m [PathKey.key "teams", PathKey.key "away",
      PathKey.key "id"]).bind J.asInt with
  | some hid, some aid =>
    if hid ≠ aid then
      match api.h2hEp hid aid with
      | Except.error _ => none
      | Except.ok v => some v
    else none
  | _, _ => none

/-- `match.get("teams", {}).get("home" / "away")` of the features dict
(src/main.py line 252): raises (`Except.error`) when a `teams` value is
present but not a dict — the only place `_bundle` itself can raise. -/
def teamsProbe (m : J) : Except Unit (Option J × Option J) :=
  match m.get "teams" with
  | none => Except.ok (none, none)
  | some (J.obj tf) => Except.ok (tf.lookup "home", tf.lookup "away")
  | some _ => Except.error ()

/-- `_bundle` of src/main.py (lines 184-283): normalize the raw match to a
dict, run the three best-effort enrichment blocks, and assemble the
features.  The only possible exception is the `teams` probe of the
features dict. -/
def bundle (api : Api) (matchRaw : J) (season : Option String) :
    Except Unit Bundle :=
  let m := if matchRaw.isObj then matchRaw else J.obj []
  let mp : List (String × J) :=
    match m.get "match_preview" with
    | some (J.obj fs) => fs
    | _ => []
  let hasPreview :=
    match mp.lookup "has_preview" with
    | some (J.b true) => true
    | _ => false
  let preview := bundlePreview api m
  let standing3 := bundleStanding api m season
  let h2hRes := bundleH2h api m
  let odds : List (String × J) :=
    match m.get "odds" with
    | some (J.obj fs) => fs
    | _ => []
  match teamsProbe m with
  | Except.error _ => Except.error ()
  | Except.ok th =>
    Except.ok
      { matchJ := m, preview := preview, standing := standing3.1,
        standingRowHome := standing3.2.1, standingRowAway := standing3.2.2,
        h2h := h2hRes,
        features :=
          { matchId := m.get "id", status := m.get "status",
            kickoffDate := m.get "date", kickoffTime := m.get "time",
            kickoffIsoStr := kickoffIso (parseDt (m.get "date") (m.get "time")),
            teamsHome := th.1, teamsAway := th.2, league := m.get "league",
            previewHasPreview := hasPreview,
            previewWordCount := mp.lookup "word_count",
            excitementRating := mp.lookup "excitement_rating",
            implied1x2 := impliedProbs1x2 (odds.lookup "match_winner"),
            impliedOverUnder := impliedProbsOU (odds.lookup "over_under"),
            handicap := handicapAvailable (odds.lookup "handicap"),
            standingHome := standing3.2.1, standingAway := standing3.2.2,
            standingSeasonParam := season, h2hOverall := overallOf h2hRes,
            avgGoalsPerGame := avgGoalsOf h2hRes, label := labelOf m } }

/-- Is an `Except` a success? -/
def isOkB : Except Unit α → Bool
  | Except.ok _ => true
  | Except.error _ => false

/-- The preview step of `_get_complete_match` (src/report.py lines
477-484): when `match_preview.has_preview is True`, fetch the preview —
NOT wrapped in `try/except`, so a fetch failure (and an extraction
failure) propagates — and store the extracted signals under
`detailed_preview`. -/
def previewPhase (api : Api) (matchId : Int) (fs : List (String × J)) :
    Except Unit (List (String × J)) :=
  match (match fs.lookup "match_preview" with
         | some (J.obj pf) => pf
         | _ => []).lookup "has_preview" with
  | some (J.b true) =>
    match api.matchPreviewEp matchId with
    | Except.error _ => Except.error ()
    | Except.ok pr =>
      match extractPreviewSignals pr with
      | Except.error _ => Except.error ()
      | Except.ok res =>
        match res with
        | some ex => Except.ok (setKey fs "detailed_preview" ex)
        | none => Except.ok fs
  | _ => Except.ok fs

/-- The standing step of `_get_complete_match` (src/report.py lines
486-492): for a truthy league id, fetch the standing inside `try/except`
(the `int()` conversion included) and store it; every failure leaves the
record unchanged. -/
def standingPhase (api : Api) (fs : List (String × J)) :
    List (String × J) :=
  match (match fs.lookup "league" with
         | some (J.obj lf) => lf
         | _ => []).lookup "id" with
  | none => fs
  | some lv =>
    if lv.pyFalsy then fs
    else
      match pyInt lv with
      | none => fs
      | some lid =>
        match api.standingEp lid none with
        | Except.error _ => fs
        | Except.ok stg => setKey fs "standing" stg

/-- The guard of the h2h step of `_get_complete_match` (src/report.py line
497): both team ids present and truthy, `int()` conversions outside the
`try` (a conversion failure raises), ids distinct. -/
def teamIdAt (fs : List (String × J)) (side : String) : Option J :=
  match (match fs.lookup "teams" with
         | some (J.obj t) => t
         | _ => []).lookup side with
  | some (J.obj sf) => sf.lookup "id"
  | _ => none

def h2hIds (fs : List (String × J)) : Except Unit (Option (Int × Int)) :=
  match teamIdAt fs "home", teamIdAt fs "away" with
  | some hv, some av =>
    if hv.pyFalsy || av.pyFalsy then Except.ok none
    else
      match pyInt hv, pyInt av with
      | some hi, some ai => Except.ok (if hi ≠ ai then some (hi, ai) else none)
      | _, _ => Except.error ()
  | _, _ => Except.ok none

/-- The h2h step of `_get_complete_match` (src/report.py lines 494-501):
when the guard selects a pair of ids, fetch inside `try/except` and store
under `h2h`; a fetch failure leaves the record unchanged. -/
def h2hPhase (api : Api) (fs : List (String × J)) :
    Except Unit (List (String × J)) :=
  match h2hIds fs with
  | Except.error _ => Except.error ()
  | Except.ok op =>
    match op with
    | none => Except.ok fs
    | some p =>
      match api.h2hEp p.1 p.2 with
      | Except.error _ => Except.ok fs
      | Except.ok h => Except.ok (setKey fs "h2h" h)

/-- The enrichment part of `_get_complete_match` (src/report.py lines
474-501): reject an empty or non-dict match payload, then run the
preview, standing and h2h steps over the raw record. -/
def enrichMatch (api : Api) (matchId : Int) (raw : J) : Except Unit J :=
  match raw with
  | J.obj fs =>
    if (J.obj fs).pyFalsy then Except.error ()
    else do
      let fs1 ← previewPhase api matchId fs
      let fs2 := standingPhase api fs1
      let fs3 ← h2hPhase api fs2
      pure (J.obj fs3)
  | _ => Except.error ()

/-- `_get_complete_match` of src/report.py: primary fetch, enrichment,
then pydantic validation. -/
def getCompleteMatch (api : Api) (matchId : Int) : Except Unit FootballMatch := do
  let raw ← api.matchEp matchId
  let enriched ← enrichMatch api matchId raw
  validateFromJ enriched

/-- `build_report_texts` of src/report.py: the full report pipeline. -/
def buildReportTexts (api : Api) (matchId : Int) : Except Unit String := do
  let m ← getCompleteMatch api matchId
  pure (generateReportMain m)


theorem exceptBind_ok (a : α) (f : α → Except Unit β) :
    (Except.ok a >>= f) = f a := rfl

theorem isOkB_bind_pure (x : Except Unit α) (f : α → β) :
    isOkB (x >>= fun a => pure (f a)) = isOkB x := by
  cases x <;> rfl

theorem lookup_map_replace (fs : List (String × J)) (k k' : String) (v : J)
    (h : k' ≠ k) :
    (fs.map (fun kv => if kv.1 == k then (k, v) else kv)).lookup k' =
      fs.lookup k' := by
  have hkk : (k' == k) = false := beq_eq_false_iff_ne.mpr h
  induction fs with
  | nil => rfl
  | cons kv rest ih =>
    rcases kv with ⟨k1, v1⟩
    by_cases he : (k1 == k) = true
    · have hk1 : k1 = k := by simpa using he
      subst hk1
      simp only [List.map_cons, if_pos he, List.lookup_cons, hkk]
      exact ih
    · have hne : (if (k1 == k) = true then (k, v) else (k1, v1)) = (k1, v1) :=
        if_neg he
      simp only [List.map_cons, hne, List.lookup_cons]
      cases hb : (k' == k1) <;> simp only [hb]
      · exact ih

theorem lookup_append_single_ne (fs : List (String × J)) (k k' : String)
    (v : J) (h : k' ≠ k) :
    ((fs ++ [(k, v)]).lookup k') = fs.lookup k' := by
  have hkk : (k' == k) = false := beq_eq_false_iff_ne.mpr h
  induction fs with
  | nil => simp [List.lookup_cons, hkk]
  | cons kv rest ih =>
    rcases kv with ⟨k1, v1⟩
    simp only [List.cons_append, List.lookup_cons]
    cases hb : (k' == k1) <;> simp [hb, ih]

theorem lookup_setKey_ne (fs : List (String × J)) (k k' : String) (v : J)
    (h : k' ≠ k) :
    (setKey fs k v).lookup k' = fs.lookup k' := by
  unfold setKey
  by_cases hp : (fs.lookup k).isSome
  · rw [if_pos hp]
    exact lookup_map_replace fs k k' v h
  · rw [if_neg hp]
    exact lookup_append_single_ne fs k k' v h

theorem standingPhase_cases (api : Api) (fs : List (String × J)) :
    standingPhase api fs = fs ∨
      ∃ stg, standingPhase api fs = setKey fs "standing" stg := by
  unfold standingPhase
  repeat' split
  all_goals first
    | exact Or.inl rfl
    | exact Or.inr ⟨_, rfl⟩

theorem standingPhase_lookup_ne (api : Api) (fs : List (String × J))
    (k : String) (hk : k ≠ "standing") :
    (standingPhase api fs).lookup k = fs.lookup k := by
  rcases standingPhase_cases api fs with h | ⟨stg, h⟩ <;> rw [h]
  exact lookup_setKey_ne fs "standing" k stg hk

theorem h2hIds_congr (fs fs' : List (String × J))
    (h : fs.lookup "teams" = fs'.lookup "teams") : h2hIds fs = h2hIds fs' := by
  unfold h2hIds teamIdAt
  rw [h]

theorem isOkB_fetchStore (x : Except Unit J) (fs : List (String × J)) :
    isOkB (match x with
           | Except.error _ => Except.ok fs
           | Except.ok h => Except.ok (setKey fs "h2h" h)) = true := by
  cases x <;> rfl

theorem isOkB_h2hPhase (api : Api) (fs : List (String × J)) :
    isOkB (h2hPhase api fs) = isOkB (h2hIds fs) := by
  unfold h2hPhase
  rcases hh : h2hIds fs with e | op
  · rfl
  · rcases op with _ | p
    · rfl
    · exact isOkB_fetchStore (api.h2hEp p.1 p.2) fs

theorem bundlePreview_fail (api : Api) (m : J) :
    bundlePreview { api with matchPreviewEp := fun _ => Except.error () } m =
      none := by
  unfold bundlePreview
  repeat' split
  all_goals first | rfl | simp_all

theorem bundleStanding_fail (api : Api) (m : J) (season : Option String) :
    bundleStanding { api with standingEp := fun _ _ => Except.error () } m
      season = (none, none, none) := by
  unfold bundleStanding
  repeat' split
  all_goals first | rfl | simp_all

theorem bundleH2h_fail (api : Api) (m : J) :
    bundleH2h { api with h2hEp := fun _ _ => Except.error () } m = none := by
  unfold bundleH2h
  repeat' split
  all_goals first | rfl | simp_all

/-- The record used by the C4 counterexample: a fully valid match payload
whose `match_preview.has_preview` flag is set. -/
def previewFlaggedRecord : J :=
  J.obj [("id", J.i 7), ("date", J.s "01/05/2024"), ("time", J.s "18:00"),
         ("league", J.obj [("id", J.i 5), ("name", J.s "League")]),
         ("teams", teamsObj 10 "Alpha" 20 "Beta"),
         ("status", J.s "finished"), ("minute", J.i 0),
         ("winner", J.s "Alpha"), ("goals", goalsObj 0 0 2 1 0 0 0 0),
         ("match_preview", J.obj [("has_preview", J.b true)])]

/-- An upstream where the preview fetch raises and every other enrichment
fetch raises too. -/
def apiPreviewFails : Api :=
  { matchEp := fun _ => Except.ok previewFlaggedRecord,
    matchPreviewEp := fun _ => Except.error (),
    standingEp := fun _ _ => Except.error (),
    h2hEp := fun _ _ => Except.error () }

/-- The same upstream with a succeeding (empty) preview payload. -/
def apiPreviewOk : Api :=
  { matchEp := fun _ => Except.ok previewFlaggedRecord,
    matchPreviewEp := fun _ => Except.ok (J.obj []),
    standingEp := fun _ _ => Except.error (),
    h2hEp := fun _ _ => Except.error () }

/-- An upstream where every endpoint raises. -/
def apiAllFail : Api :=
  { matchEp := fun _ => Except.error (),
    matchPreviewEp := fun _ => Except.error (),
    standingEp := fun _ _ => Except.error (),
    h2hEp := fun _ _ => Except.error () }

/-- C4 counterexample: in report building (`_get_complete_match`), the
preview fetch is not wrapped in `try/except`, so its failure propagates to
the caller — the identical match with a succeeding preview fetch builds
fine, while the failing fetch aborts report building (the standing and h2h
fetches fail in both runs and are caught). -/
theorem preview_failure_propagates :
    getCompleteMatch apiPreviewFails 7 = Except.error () ∧
    ∃ m, getCompleteMatch apiPreviewOk 7 = Except.ok m := by
  exact ⟨rfl, ⟨_, rfl⟩⟩

/-- C4 amended: in bundle building (`_bundle`) every enrichment-fetch
failure is caught where the fetch happens — whether bundle building raises
at all is independent of the fetch outcomes, a failing preview/standing/h2h
fetch yields the corresponding absent (`None`) data, and the three
enrichment results depend only on their own endpoint, so one failure never
prevents the others from being fetched and used.  In report building
(`_get_complete_match`), standing and h2h fetch failures are likewise never
propagated (success of the enrichment phase is independent of those two
endpoints); the preview fetch, however, is not wrapped in `try/except` and
its failure propagates to the caller (see the counterexample). -/
theorem enrichment_failures_spec :
    (∀ (api apj : Api) (raw : J) (season seasom : Option String),
      isOkB (bundle api raw season) = isOkB (bundle apj raw seasom)) ∧
    (∀ (api : Api) (raw : J) (season : Option String) (b : Bundle),
      bundle { api with matchPreviewEp := fun _ => Except.error () } raw
        season = Except.ok b → b.preview = none) ∧
    (∀ (api : Api) (raw : J) (season : Option String) (b : Bundle),
      bundle { api with standingEp := fun _ _ => Except.error () } raw
        season = Except.ok b →
      b.standing = none ∧ b.standingRowHome = none ∧
        b.standingRowAway = none) ∧
    (∀ (api : Api) (raw : J) (season : Option String) (b : Bundle),
      bundle { api with h2hEp := fun _ _ => Except.error () } raw season =
        Except.ok b →
      b.h2h = none ∧ b.features.h2hOverall = none ∧
        b.features.avgGoalsPerGame = none) ∧
    (∀ (me mf p : Int → Except Unit J)
      (s t : Int → Option String → Except Unit J)
      (h i : Int → Int → Except Unit J) (raw : J) (season : Option String),
      Except.map Bundle.preview (bundle ⟨me, p, s, h⟩ raw season) =
        Except.map Bundle.preview (bundle ⟨mf, p, t, i⟩ raw season)) ∧
    (∀ (me mf p q : Int → Except Unit J)
      (s : Int → Option String → Except Unit J)
      (h i : Int → Int → Except Unit J) (raw : J) (season : Option String),
      Except.map (fun b => (b.standing, b.standingRowHome, b.standingRowAway))
        (bundle ⟨me, p, s, h⟩ raw season) =
      Except.map (fun b => (b.standing, b.standingRowHome, b.standingRowAway))
        (bundle ⟨mf, q, s, i⟩ raw season)) ∧
    (∀ (me mf p q : Int → Except Unit J)
      (s t : Int → Option String → Except Unit J)
      (h : Int → Int → Except Unit J) (raw : J) (season : Option String),
      Except.map Bundle.h2h (bundle ⟨me, p, s, h⟩ raw season) =
        Except.map Bundle.h2h (bundle ⟨mf, q, t, h⟩ raw season)) ∧
    (∀ (me mf p : Int → Except Unit J)
      (s t : Int → Option String → Except Unit J)
      (h i : Int → Int → Except Unit J) (mid : Int) (raw : J),
      isOkB (enrichMatch ⟨me, p, s, h⟩ mid raw) =
        isOkB (enrichMatch ⟨mf, p, t, i⟩ mid raw)) := by
  refine ⟨?_, ?_, ?_, ?_, ?_, ?_, ?_, ?_⟩
  · intro api apj raw season seasom
    simp only [bundle]
    rcases ht : teamsProbe (if raw.isObj = true then raw else J.obj []) with
      e | th <;> rfl
  · intro api raw season b hb
    simp only [bundle] at hb
    rcases ht : teamsProbe (if raw.isObj = true then raw else J.obj []) with
      e | th
    · rw [ht] at hb
      exact Except.noConfusion hb
    · rw [ht] at hb
      injection hb with hb2
      subst hb2
      simp [bundlePreview_fail]
  · intro api raw season b hb
    simp only [bundle] at hb
    rcases ht : teamsProbe (if raw.isObj = true then raw else J.obj []) with
      e | th
    · rw [ht] at hb
      exact Except.noConfusion hb
    · rw [ht] at hb
      injection hb with hb2
      subst hb2
      refine ⟨?_, ?_, ?_⟩ <;> simp [bundleStanding_fail]
  · intro api raw season b hb
    simp only [bundle] at hb
    rcases ht : teamsProbe (if raw.isObj = true then raw else J.obj []) with
      e | th
    · rw [ht] at hb
      exact Except.noConfusion hb
    · rw [ht] at hb
      injection hb with hb2
      subst hb2
      refine ⟨?_, ?_, ?_⟩ <;>
        simp [bundleH2h_fail, overallOf, avgGoalsOf, avgFromOverall]
  · intro me mf p s t h i raw season
    simp only [bundle]
    rcases ht : teamsProbe (if raw.isObj = true then raw else J.obj []) with
      e | th <;> rfl
  · intro me mf p q s h i raw season
    simp only [bundle]
    rcases ht : teamsProbe (if raw.isObj = true then raw else J.obj []) with
      e | th <;> rfl
  · intro me mf p q s t h raw season
    simp only [bundle]
    rcases ht : teamsProbe (if raw.isObj = true then raw else J.obj []) with
      e | th <;> rfl
  · intro me mf p s t h i mid raw
    cases raw
    case obj fs =>
      by_cases hf : (J.obj fs).pyFalsy = true
      · simp [enrichMatch, hf]
      · simp only [enrichMatch, hf, Bool.false_eq_true, if_false]
        have hpp : previewPhase ⟨mf, p, t, i⟩ mid fs =
          previewPhase ⟨me, p, s, h⟩ mid fs := rfl
        rw [hpp]
        rcases hp : previewPhase ⟨me, p, s, h⟩ mid fs with e | fs1
        · rfl
        · simp only [exceptBind_ok]
          rw [isOkB_bind_pure, isOkB_bind_pure, isOkB_h2hPhase, isOkB_h2hPhase]
          have hteams : (standingPhase ⟨me, p, s, h⟩ fs1).lookup "teams" =
              (standingPhase ⟨mf, p, t, i⟩ fs1).lookup "teams" := by
            rw [standingPhase_lookup_ne _ _ _ (by decide),
              standingPhase_lookup_ne _ _ _ (by decide)]
          rw [h2hIds_congr _ _ hteams]
    all_goals rfl

/-- The bundle produced for a `null` match payload (everything absent). -/
def emptyBundle : Bundle :=
  { matchJ := J.obj [], preview := none, standing := none,
    standingRowHome := none, standingRowAway := none, h2h := none,
    features :=
      { matchId := none, status := none, kickoffDate := none,
        kickoffTime := none, kickoffIsoStr := none, teamsHome := none,
        teamsAway := none, league := none, previewHasPreview := false,
        previewWordCount := none, excitementRating := none,
        implied1x2 := Implied1x2.unavailable,
        impliedOverUnder := ImpliedOU.unavailable,
        handicap := HandicapAvail.unavailable, standingHome := none,
        standingAway := none, standingSeasonParam := none,
        h2hOverall := none, avgGoalsPerGame := none, label := none } }

/-- Witness for the C4 amended theorem: with every endpoint failing, the
bundle of a `null` payload is built with all enrichment data absent. -/
theorem enrichment_failures_spec_witness :
    emptyBundle.preview = none ∧
    (emptyBundle.standing = none ∧ emptyBundle.standingRowHome = none ∧
      emptyBundle.standingRowAway = none) ∧
    (emptyBundle.h2h = none ∧ emptyBundle.features.h2hOverall = none ∧
      emptyBundle.features.avgGoalsPerGame = none) :=
  ⟨enrichment_failures_spec.2.1 apiAllFail J.null none emptyBundle rfl,
   enrichment_failures_spec.2.2.1 apiAllFail J.null none emptyBundle rfl,
   enrichment_failures_spec.2.2.2.1 apiAllFail J.null none emptyBundle rfl⟩

/-- The `/dataset/matches` handler (src/main.py lines 352-364): for each
requested id, fetch the match and build its bundle inside `try/except`;
any failure (fetch or bundling) skips that id; the bundles accumulate in
request order. -/
def datasetMatches (api : Api) (matchIds : List Int)
    (season : Option String) : List Bundle :=
  matchIds.foldl
    (fun acc mid =>
      match api.matchEp mid with
      | Except.error _ => acc
      | Except.ok m =>
        match bundle api m season with
        | Except.error _ => acc
        | Except.ok b => acc ++ [b])
    []

/-- One id's contribution to `/dataset/matches`: its bundle when both the
fetch and the bundling succeed, nothing otherwise. -/
def bundleFor (api : Api) (season : Option String) (mid : Int) :
    Option Bundle :=
  match api.matchEp mid with
  | Except.error _ => none
  | Except.ok m =>
    match bundle api m season with
    | Except.error _ => none
    | Except.ok b => some b

theorem datasetMatches_go (api : Api) (season : Option String)
    (matchIds : List Int) (acc : List Bundle) :
    matchIds.foldl
      (fun acc mid =>
        match api.matchEp mid with
        | Except.error _ => acc
        | Except.ok m =>
          match bundle api m season with
          | Except.error _ => acc
          | Except.ok b => acc ++ [b])
      acc = acc ++ matchIds.filterMap (bundleFor api season) := by
  induction matchIds generalizing acc with
  | nil => simp
  | cons mid rest ih =>
    simp only [List.foldl_cons, List.filterMap_cons]
    rcases hm : api.matchEp mid with e | m
    · rw [ih]
      simp [bundleFor, hm]
    · rcases hb : bundle api m season with e | b
      · rw [ih]
        simp [bundleFor, hm, hb]
      · rw [ih]
        simp [bundleFor, hm, hb]

/-- C10: `/dataset/matches` never fails because of an individual match —
each id whose fetch or bundling raises is silently skipped (its
contribution is `none` in the id-wise description), the returned bundles
are exactly the successful ids' bundles in request order, and the number
of bundles never exceeds the number of requested ids. -/
theorem datasetMatches_spec (api : Api) (matchIds : List Int)
    (season : Option String) :
    datasetMatches api matchIds season =
      matchIds.filterMap (bundleFor api season) ∧
    (datasetMatches api matchIds season).length ≤ matchIds.length := by
  have h := datasetMatches_go api season matchIds []
  rw [List.nil_append] at h
  refine ⟨h, ?_⟩
  unfold datasetMatches
  rw [h]
  exact List.length_filterMap_le _ _

/-- The per-item step of the `/dataset/upcoming` loop (src/main.py lines
376-383): skip non-dict items; when the optional `league_id` parameter is
given, also skip items whose `league.id` probe is unequal to it;
otherwise append. -/
def upcomingStep (leagueId : Option Int) (acc : List J) (item : J) : List J :=
  if !item.isObj then acc
  else
    match leagueId with
    | some lid =>
      if pyEqInt (safeGet item [PathKey.key "league", PathKey.key "id"]) lid
      then acc ++ [item]
      else acc
    | none => acc ++ [item]

/-- The `/dataset/upcoming` handler's filtering loop (src/main.py lines
374-385). -/
def datasetUpcoming (upcoming : J) (leagueId : Option Int) : List J :=
  match upcoming with
  | J.arr items => items.foldl (upcomingStep leagueId) []
  | _ => []

/-- Does one upcoming item survive the `/dataset/upcoming` loop? -/
def keepUpcoming (leagueId : Option Int) (item : J) : Bool :=
  item.isObj &&
    (match leagueId with
     | some lid =>
       pyEqInt (safeGet item [PathKey.key "league", PathKey.key "id"]) lid
     | none => true)

theorem upcomingStep_eq (leagueId : Option Int) (acc : List J) (item : J) :
    upcomingStep leagueId acc item =
      if keepUpcoming leagueId item then acc ++ [item] else acc := by
  unfold upcomingStep
  rcases ho : item.isObj with _ | _
  · cases leagueId <;> simp [keepUpcoming, ho]
  · cases leagueId with
    | none => simp [keepUpcoming, ho]
    | some lid =>
      rcases he : pyEqInt (safeGet item [PathKey.key "league",
        PathKey.key "id"]) lid with _ | _ <;> simp [keepUpcoming, ho, he]

theorem foldl_keep_filter (p : J → Bool) (items : List J) (acc : List J) :
    items.foldl (fun acc item => if p item then acc ++ [item] else acc) acc =
      acc ++ items.filter p := by
  induction items generalizing acc with
  | nil => simp
  | cons item rest ih =>
    simp only [List.foldl_cons, List.filter_cons]
    by_cases hk : p item = true
    · rw [if_pos hk, if_pos hk, ih]
      simp
    · rw [if_neg hk, if_neg hk, ih]

/-- A raw upcoming league block whose league id 999 is outside the
allow-list named by the specification. -/
def league999Block : J :=
  J.obj [("league", J.obj [("id", J.i 999), ("name", J.s "Mystery")]),
         ("matches", J.arr [J.obj [("id", J.i 555)]])]

/-- C5 counterexample: the `/dataset/upcoming` handler applies no fixed
allow-list — a league block with id 999, which is not in the allow-list
`{228, 326, 310, 322, 323, 198, 235, 241, 253, 297, 299, 168}` that the
claim names, passes through (with its matches) when no `league_id`
parameter is given. -/
theorem upcoming_no_allowlist_counterexample :
    (999 : Int) ∉
      ([228, 326, 310, 322, 323, 198, 235, 241, 253, 297, 299, 168] :
        List Int) ∧
    datasetUpcoming (J.arr [league999Block]) none = [league999Block] := by
  exact ⟨by decide, rfl⟩

/-- C5 amended: `/dataset/upcoming` surfaces exactly the dict league
blocks that match the optional `league_id` query parameter — when the
parameter is absent, every dict block in the upstream payload appears in
the output (no allow-list is applied); when present, exactly those whose
`league.id` equals it appear. -/
theorem datasetUpcoming_spec :
    (∀ (items : List J) (leagueId : Option Int),
      datasetUpcoming (J.arr items) leagueId =
        items.filter (keepUpcoming leagueId)) ∧
    (∀ (items : List J) (item : J), item ∈ items → item.isObj = true →
      item ∈ datasetUpcoming (J.arr items) none) := by
  have hmain : ∀ (items : List J) (leagueId : Option Int),
      datasetUpcoming (J.arr items) leagueId =
        items.filter (keepUpcoming leagueId) := by
    intro items leagueId
    have hfe : upcomingStep leagueId =
        fun acc item => if keepUpcoming leagueId item then acc ++ [item]
          else acc :=
      funext fun acc => funext fun item => upcomingStep_eq leagueId acc item
    rw [show datasetUpcoming (J.arr items) leagueId =
      items.foldl (upcomingStep leagueId) [] from rfl]
    rw [hfe, foldl_keep_filter, List.nil_append]
  refine ⟨hmain, ?_⟩
  intro items item hmem hobj
  rw [hmain, List.mem_filter]
  exact ⟨hmem, by simp [keepUpcoming, hobj]⟩

/-- Witness for the C5 amended theorem: the id-999 block is a dict and
appears in the output when no `league_id` is given. -/
theorem datasetUpcoming_spec_witness :
    league999Block ∈ datasetUpcoming (J.arr [league999Block]) none :=
  datasetUpcoming_spec.2 [league999Block] league999Block
    (List.Mem.head _) rfl
